import Mathlib

/-!
rainbow-triangle: a trace model of `src/main.cpp`.

The program is a single translation unit: four RAII wrappers around OpenGL
handles (`Shader`, `ShaderProgram`, `VAO`, `VBO`), the helper `processInput`,
the resize callback, and `main`.

Everything the program does is a call into GLFW, GLEW, OpenGL or Dear ImGui.
The embedding therefore records each such call as an `Event`, in program order,
and takes whatever those libraries hand back (success flags, handles, the key
state, the slider value, close requests) from an environment.  Floating-point
values are modelled by exact rationals.
-/

namespace RainbowTriangle

/-! ## Data -/

/-- Size in bytes of a C++ `float` (`sizeof(float)`), 4 on every platform
OpenGL runs on. -/
def sizeofFloat : Nat := 4

/-- The global `std::vector<float> vertices` (main.cpp:21-25); every literal is
exactly representable, so the rationals are the stored values. -/
def vertices : List ℚ :=
  [-1/2, -1/2, 0, 1, 0, 0,
    1/2, -1/2, 0, 0, 1, 0,
    0,    1/2, 0, 0, 0, 1]

/-- The two standard output streams the program writes to. -/
inductive OutStream where
  | cout
  | cerr
  deriving DecidableEq, Repr

/-- The messages the program prints. -/
inductive Message where
  | startImGui
  | failedWindow
  | startGlfwBackend
  | failedGlfwBackend
  | startOpenGLBackend
  | failedOpenGLBackend
  | failedGlew
  | failedVAO
  | failedVBO
  deriving DecidableEq, Repr

/-- The text of each message, as written in the source. -/
def Message.text : Message → String
  | .startImGui => "Initializing ImGui..."
  | .failedWindow => "Failed to create GLFW window"
  | .startGlfwBackend => "Initializing ImGui GLFW backend..."
  | .failedGlfwBackend => "Failed to initialize ImGui GLFW backend!"
  | .startOpenGLBackend => "Initializing ImGui OpenGL backend..."
  | .failedOpenGLBackend => "Failed to initialize ImGui OpenGL backend!"
  | .failedGlew => "Failed to initialize GLEW"
  | .failedVAO => "Failed to generate Vertex Array Object"
  | .failedVBO => "Failed to generate Vertex Buffer Object"

/-- The messages that report a failure (as opposed to progress). -/
def Message.isFailure : Message → Bool
  | .failedWindow | .failedGlfwBackend | .failedOpenGLBackend | .failedGlew
  | .failedVAO | .failedVBO => true
  | _ => false

/-- The `GLenum` shader kinds used: `GL_VERTEX_SHADER`, `GL_FRAGMENT_SHADER`. -/
inductive ShaderType where
  | GL_VERTEX_SHADER
  | GL_FRAGMENT_SHADER
  deriving DecidableEq, Repr

/-- The two GLSL source strings of `main`, named after the local variables
holding them. -/
inductive ShaderText where
  | vertexShaderSource
  | fragmentShaderSource
  deriving DecidableEq, Repr

/-- The three `glfwWindowHint` calls of `main`. -/
inductive WindowHint where
  | GLFW_CONTEXT_VERSION_MAJOR (v : Nat)
  | GLFW_CONTEXT_VERSION_MINOR (v : Nat)
  | GLFW_OPENGL_PROFILE_CORE
  deriving DecidableEq, Repr

/-- Primitive mode of a draw call. -/
inductive DrawMode where
  | GL_TRIANGLES
  deriving DecidableEq, Repr

/-- The five wrapper objects `main` declares, by variable name. -/
inductive WrapperObj where
  | vbo
  | vao
  | fragmentShader
  | vertexShader
  | program
  deriving DecidableEq, Repr

/-- One observable step of the program: a library call with the arguments that
matter and, where the call returns something, the value it returned.
`construct`/`destruct` mark the start of a wrapper's constructor and destructor
and `colorDeltaStore` is the assignment `colorDelta += colorDeltaSpeed`. -/
inductive Event where
  | print (s : OutStream) (m : Message)
  | IMGUI_CHECKVERSION
  | ImGui_CreateContext
  | ImGui_StyleColorsDark
  | glfwInit
  | glfwWindowHint (h : WindowHint)
  | glfwCreateWindow (width height : Nat) (ok : Bool)
  | glfwTerminate
  | glfwMakeContextCurrent
  | ImGui_ImplGlfw_InitForOpenGL (installCallbacks ok : Bool)
  | ImGui_ImplOpenGL3_Init (ok : Bool)
  | glewExperimentalStore (v : Bool)
  | glewInit (ok : Bool)
  | glViewport (x y width height : Int)
  | glfwSetFramebufferSizeCallback
  | construct (w : WrapperObj)
  | destruct (w : WrapperObj)
  | glGenBuffers (id : Nat)
  | glBindBuffer (id : Nat)
  | glBufferData (bytes : Nat) (data : List ℚ)
  | glDeleteBuffers (id : Nat)
  | glGenVertexArrays (id : Nat)
  | glBindVertexArray (id : Nat)
  | glDeleteVertexArrays (id : Nat)
  | glVertexAttribPointer (index size : Nat) (normalized : Bool) (stride pointer : Nat)
  | glEnableVertexAttribArray (index : Nat)
  | glCreateShader (type : ShaderType) (id : Nat)
  | glShaderSource (id : Nat) (src : ShaderText)
  | glCompileShader (id : Nat)
  | glDeleteShader (id : Nat)
  | glCreateProgram (id : Nat)
  | glAttachShader (prog shader : Nat)
  | glLinkProgram (id : Nat)
  | glUseProgram (id : Nat)
  | glDeleteProgram (id : Nat)
  | glGetUniformLocation (prog : Nat) (loc : Int)
  | glfwWindowShouldClose (result : Bool)
  | ImGui_ImplOpenGL3_NewFrame
  | ImGui_ImplGlfw_NewFrame
  | ImGui_NewFrame
  | ImGui_Begin
  | ImGui_SliderFloat (vmin vmax after : ℚ)
  | ImGui_End
  | glUniform1f (loc : Int) (v : ℚ)
  | colorDeltaStore (v : ℚ)
  | glClearColor (r g b a : ℚ)
  | glClear
  | glDrawArrays (mode : DrawMode) (first count : Nat)
  | ImGui_Render
  | ImGui_ImplOpenGL3_RenderDrawData
  | glfwGetKeyEscape (pressed : Bool)
  | glfwSetWindowShouldClose (v : Bool)
  | glfwSwapBuffers
  | glfwPollEvents
  | glfwDestroyWindow
  | ImGui_ImplOpenGL3_Shutdown
  | ImGui_ImplGlfw_Shutdown
  | ImGui_DestroyContext
  deriving Repr

/-! ## The resource wrappers -/

/-- The class `Shader`: one handle and its kind. -/
structure Shader where
  m_id : Nat
  type : ShaderType
  deriving DecidableEq, Repr

/-- The class `ShaderProgram`. -/
structure ShaderProgram where
  m_id : Nat
  deriving DecidableEq, Repr

/-- The class `VAO`. -/
structure VAO where
  m_id : Nat
  deriving DecidableEq, Repr

/-- The class `VBO`. -/
structure VBO where
  m_id : Nat
  deriving DecidableEq, Repr

/-- The accessor `Shader::id()`. -/
def Shader.id (s : Shader) : Nat := s.m_id

/-- The accessor `ShaderProgram::id()`. -/
def ShaderProgram.id (p : ShaderProgram) : Nat := p.m_id

/-- The accessor `VAO::id()`. -/
def VAO.id (v : VAO) : Nat := v.m_id

/-- The accessor `VBO::id()`. -/
def VBO.id (v : VBO) : Nat := v.m_id

/-- Constructor `Shader::Shader` (main.cpp:29-35); `created` is what
`glCreateShader` returns (0 when the driver cannot allocate). -/
def Shader.ctor (created : Nat) (shaderSource : ShaderText) (shaderType : ShaderType) :
    Shader × List Event :=
  ({ m_id := created, type := shaderType },
   [.glCreateShader shaderType created,
    .glShaderSource created shaderSource,
    .glCompileShader created])

/-- Destructor `Shader::~Shader` (main.cpp:36). -/
def Shader.dtor (s : Shader) : List Event := [.glDeleteShader s.m_id]

/-- Constructor `ShaderProgram::ShaderProgram` (main.cpp:46-51); `created` is
what `glCreateProgram` returns. -/
def ShaderProgram.ctor (created : Nat) (vertexShaderID fragmentShaderID : Nat) :
    ShaderProgram × List Event :=
  ({ m_id := created },
   [.glCreateProgram created,
    .glAttachShader created vertexShaderID,
    .glAttachShader created fragmentShaderID,
    .glLinkProgram created])

/-- The method `ShaderProgram::use` (main.cpp:52). -/
def ShaderProgram.use (p : ShaderProgram) : List Event := [.glUseProgram p.m_id]

/-- Destructor `ShaderProgram::~ShaderProgram` (main.cpp:53). -/
def ShaderProgram.dtor (p : ShaderProgram) : List Event := [.glDeleteProgram p.m_id]

/-- Constructor `VAO::VAO` (main.cpp:62-68); `generated` is the name
`glGenVertexArrays` stores into `m_id` (0 when nothing was generated). -/
def VAO.ctor (generated : Nat) : VAO × List Event :=
  ({ m_id := generated },
   .glGenVertexArrays generated ::
     (if generated = 0 then [.print .cout .failedVAO] else []))

/-- The method `VAO::bind` (main.cpp:76). -/
def VAO.bind (v : VAO) : List Event := [.glBindVertexArray v.m_id]

/-- The method `VAO::setAttribPointer` (main.cpp:70-75). -/
def VAO.setAttribPointer (v : VAO) (index size : Nat) (normalized : Bool)
    (stride pointer : Nat) : List Event :=
  v.bind ++ [.glVertexAttribPointer index size normalized stride pointer]

/-- Destructor `VAO::~VAO` (main.cpp:69). -/
def VAO.dtor (v : VAO) : List Event := [.glDeleteVertexArrays v.m_id]

/-- The method `VBO::bind` (main.cpp:97). -/
def VBO.bind (v : VBO) : List Event := [.glBindBuffer v.m_id]

/-- Constructor `VBO::VBO` (main.cpp:86-95); `generated` is the name
`glGenBuffers` stores into `m_id`. -/
def VBO.ctor (generated : Nat) (vertices : List ℚ) : VBO × List Event :=
  ({ m_id := generated },
   .glGenBuffers generated ::
     (if generated = 0 then [.print .cout .failedVBO]
      else VBO.bind { m_id := generated } ++
        [.glBufferData (vertices.length * sizeofFloat) vertices]))

/-- Destructor `VBO::~VBO` (main.cpp:96). -/
def VBO.dtor (v : VBO) : List Event := [.glDeleteBuffers v.m_id]

/-! ## The frame loop -/

/-- What the outside world contributes to one frame. -/
structure FrameInput where
  /-- The value `SliderFloat` stored into `colorDeltaSpeed` (`none`: the
  slider was not moved and the variable is left as it was). -/
  slider : Option ℚ
  /-- Whether `glfwGetKey(window, GLFW_KEY_ESCAPE)` reports `GLFW_PRESS`. -/
  escapePressed : Bool
  /-- Whether `glfwPollEvents` delivers a close request from the OS. -/
  closeRequested : Bool
  /-- The framebuffer sizes for which `glfwPollEvents` runs the registered
  resize callback. -/
  resizes : List (Int × Int)
  deriving DecidableEq, Repr

/-- The mutable state that lives across frames: the window's close flag and the
two animation variables of `main`. -/
structure LoopState where
  shouldClose : Bool
  colorDelta : ℚ
  colorDeltaSpeed : ℚ
  deriving DecidableEq, Repr

/-- The function `framebuffer_size_callback` (main.cpp:11-14). -/
def framebuffer_size_callback (width height : Int) : List Event :=
  [.glViewport 0 0 width height]

/-- The function `processInput` (main.cpp:16-19): returns the close flag
afterwards and the calls made. -/
def processInput (escapePressed : Bool) (shouldClose : Bool) : Bool × List Event :=
  if escapePressed then
    (true, [.glfwGetKeyEscape true, .glfwSetWindowShouldClose true])
  else
    (shouldClose, [.glfwGetKeyEscape false])

/-- The value of `colorDeltaSpeed` once `ImGui::SliderFloat` has returned. -/
def sliderFloat (i : FrameInput) (colorDeltaSpeed : ℚ) : ℚ :=
  i.slider.getD colorDeltaSpeed

/-- One pass through the body of the render loop (main.cpp:200-228). -/
def frameBody (program : ShaderProgram) (vao : VAO) (uniformLocation : Int)
    (i : FrameInput) (st : LoopState) : LoopState × List Event :=
  let speed := sliderFloat i st.colorDeltaSpeed
  let gui : List Event :=
    [.ImGui_ImplOpenGL3_NewFrame, .ImGui_ImplGlfw_NewFrame, .ImGui_NewFrame,
     .ImGui_Begin, .ImGui_SliderFloat 0 (3/10) speed, .ImGui_End]
  let pushed : List Event := [.glUniform1f uniformLocation st.colorDelta]
  let colorDelta := st.colorDelta + speed
  let render : List Event :=
    [.colorDeltaStore colorDelta, .glClearColor (1/5) (2/5) (2/5) 1, .glClear] ++
    program.use ++
    [.glBindVertexArray vao.id, .glDrawArrays .GL_TRIANGLES 0 3,
     .ImGui_Render, .ImGui_ImplOpenGL3_RenderDrawData]
  let input := processInput i.escapePressed st.shouldClose
  let polled : List Event :=
    [.glfwSwapBuffers, .glfwPollEvents] ++
    (i.resizes.map (fun wh => framebuffer_size_callback wh.1 wh.2)).flatten
  ({ shouldClose := input.1 || i.closeRequested,
     colorDelta := colorDelta,
     colorDeltaSpeed := speed },
   gui ++ pushed ++ render ++ input.2 ++ polled)

/-- What a run of the render loop over the available frame inputs produced.
`exited` tells whether the loop condition was found false; when the inputs run
out first the loop is still running and `exited` is `false`. -/
structure LoopRun where
  state : LoopState
  trace : List Event
  frames : Nat
  exited : Bool
  deriving Repr

/-- The loop `while (!glfwWindowShouldClose(window)) ...` (main.cpp:199-229),
fed one `FrameInput` per iteration.  The condition is evaluated first in either
case; with no input left and the flag clear, the observation ends there. -/
def frameLoop (program : ShaderProgram) (vao : VAO) (uniformLocation : Int) :
    List FrameInput → LoopState → LoopRun
  | [], st =>
    if st.shouldClose then
      { state := st, trace := [.glfwWindowShouldClose true], frames := 0, exited := true }
    else
      { state := st, trace := [], frames := 0, exited := false }
  | i :: rest, st =>
    if st.shouldClose then
      { state := st, trace := [.glfwWindowShouldClose true], frames := 0, exited := true }
    else
      let b := frameBody program vao uniformLocation i st
      let r := frameLoop program vao uniformLocation rest b.1
      { state := r.state,
        trace := .glfwWindowShouldClose false :: (b.2 ++ r.trace),
        frames := r.frames + 1,
        exited := r.exited }

/-! ## `main` -/

/-- What the libraries return to `main` outside the frame loop. -/
structure Env where
  /-- The call `glfwCreateWindow` returned a non-null window. -/
  windowCreated : Bool
  /-- The call `ImGui_ImplGlfw_InitForOpenGL` returned true. -/
  implGlfwInit : Bool
  /-- The call `ImGui_ImplOpenGL3_Init` returned true. -/
  implOpenGL3Init : Bool
  /-- The call `glewInit` returned `GLEW_OK`. -/
  glewOk : Bool
  /-- Name produced by `glGenBuffers` for `vbo`. -/
  vboGen : Nat
  /-- Name produced by `glGenVertexArrays` for `vao`. -/
  vaoGen : Nat
  /-- Handle returned by `glCreateShader` for `fragmentShader`. -/
  fragmentCreated : Nat
  /-- Handle returned by `glCreateShader` for `vertexShader`. -/
  vertexCreated : Nat
  /-- Handle returned by `glCreateProgram`. -/
  programCreated : Nat
  /-- Location returned by `glGetUniformLocation`. -/
  uniformLocation : Int
  deriving DecidableEq, Repr

/-- Outcome of `main`: the exit code if it returned (`none` while the render
loop is still running at the end of the inputs), every call made, and how many
loop bodies ran. -/
structure Run where
  exitCode : Option Int
  trace : List Event
  frames : Nat
  deriving Repr

/-- Calls of main.cpp:107-117, up to and including `glfwCreateWindow`. -/
def openWindow (e : Env) : List Event :=
  [.print .cout .startImGui, .IMGUI_CHECKVERSION, .ImGui_CreateContext,
   .ImGui_StyleColorsDark, .glfwInit,
   .glfwWindowHint (.GLFW_CONTEXT_VERSION_MAJOR 3),
   .glfwWindowHint (.GLFW_CONTEXT_VERSION_MINOR 3),
   .glfwWindowHint .GLFW_OPENGL_PROFILE_CORE,
   .glfwCreateWindow 800 600 e.windowCreated]

/-- Calls of main.cpp:123-126, up to and including the GLFW backend. -/
def initGlfwBackend (e : Env) : List Event :=
  [.glfwMakeContextCurrent, .print .cout .startGlfwBackend,
   .ImGui_ImplGlfw_InitForOpenGL true e.implGlfwInit]

/-- Calls of main.cpp:131-132, up to and including the OpenGL backend. -/
def initOpenGLBackend (e : Env) : List Event :=
  [.print .cout .startOpenGLBackend, .ImGui_ImplOpenGL3_Init e.implOpenGL3Init]

/-- Calls of main.cpp:138-142, up to and including `glewInit`. -/
def initGlew (e : Env) : List Event :=
  [.glfwMakeContextCurrent, .glewExperimentalStore true, .glewInit e.glewOk]

/-- The wrapper objects of main.cpp:181-185 once constructed. -/
structure Wrappers where
  vbo : VBO
  vao : VAO
  fragmentShader : Shader
  vertexShader : Shader
  program : ShaderProgram
  deriving DecidableEq, Repr

/-- Lines main.cpp:148-193: viewport, callback, construction of the five
wrappers, attribute set-up, first `use` and the uniform lookup. -/
def createScene (e : Env) : Wrappers × List Event :=
  let vbo := VBO.ctor e.vboGen vertices
  let vao := VAO.ctor e.vaoGen
  let fragmentShader := Shader.ctor e.fragmentCreated .fragmentShaderSource .GL_FRAGMENT_SHADER
  let vertexShader := Shader.ctor e.vertexCreated .vertexShaderSource .GL_VERTEX_SHADER
  let program := ShaderProgram.ctor e.programCreated fragmentShader.1.id vertexShader.1.id
  ({ vbo := vbo.1, vao := vao.1, fragmentShader := fragmentShader.1,
     vertexShader := vertexShader.1, program := program.1 },
   [.glViewport 0 0 800 600, .glfwSetFramebufferSizeCallback] ++
   (.construct .vbo :: vbo.2) ++
   (.construct .vao :: vao.2) ++
   (.construct .fragmentShader :: fragmentShader.2) ++
   (.construct .vertexShader :: vertexShader.2) ++
   (.construct .program :: program.2) ++
   vao.1.setAttribPointer 0 3 false (6 * sizeofFloat) 0 ++
   vao.1.setAttribPointer 1 3 false (6 * sizeofFloat) (3 * sizeofFloat) ++
   [.glEnableVertexAttribArray 0, .glEnableVertexAttribArray 1] ++
   program.1.use ++
   [.glGetUniformLocation program.1.id e.uniformLocation])

/-- The state in which the render loop is entered: a fresh window's close flag
is clear, `colorDelta = 1.0f` and `colorDeltaSpeed = 0.01`. -/
def initialLoopState : LoopState :=
  { shouldClose := false, colorDelta := 1, colorDeltaSpeed := 1/100 }

/-- Lines main.cpp:232-236, the explicit clean-up. -/
def cleanUp : List Event :=
  [.glfwDestroyWindow, .glfwTerminate, .ImGui_ImplOpenGL3_Shutdown,
   .ImGui_ImplGlfw_Shutdown, .ImGui_DestroyContext]

/-- The destructors that run as `main` returns from its last line: locals are
destroyed in the reverse of their declaration order. -/
def scopeExit (w : Wrappers) : List Event :=
  (.destruct .program :: w.program.dtor) ++
  (.destruct .vertexShader :: w.vertexShader.dtor) ++
  (.destruct .fragmentShader :: w.fragmentShader.dtor) ++
  (.destruct .vao :: w.vao.dtor) ++
  (.destruct .vbo :: w.vbo.dtor)

/-- The function `main` (main.cpp:105-238). -/
def main (e : Env) (inputs : List FrameInput) : Run :=
  if e.windowCreated = false then
    { exitCode := some (-1),
      trace := openWindow e ++ [.print .cout .failedWindow, .glfwTerminate],
      frames := 0 }
  else if e.implGlfwInit = false then
    { exitCode := some (-1),
      trace := openWindow e ++ initGlfwBackend e ++ [.print .cerr .failedGlfwBackend],
      frames := 0 }
  else if e.implOpenGL3Init = false then
    { exitCode := some (-1),
      trace := openWindow e ++ initGlfwBackend e ++ initOpenGLBackend e ++
        [.print .cerr .failedOpenGLBackend],
      frames := 0 }
  else if e.glewOk = false then
    { exitCode := some (-1),
      trace := openWindow e ++ initGlfwBackend e ++ initOpenGLBackend e ++ initGlew e ++
        [.print .cerr .failedGlew],
      frames := 0 }
  else
    let scene := createScene e
    let loop := frameLoop scene.1.program scene.1.vao e.uniformLocation inputs initialLoopState
    let before := openWindow e ++ initGlfwBackend e ++ initOpenGLBackend e ++ initGlew e ++
      scene.2 ++ loop.trace
    if loop.exited then
      { exitCode := some 0,
        trace := before ++ cleanUp ++ scopeExit scene.1,
        frames := loop.frames }
    else
      { exitCode := none, trace := before, frames := loop.frames }

/-! ## Observations on traces -/

/-- The value `colorDeltaSpeed` holds after each `SliderFloat` call, in order. -/
def sliderValues (t : List Event) : List ℚ :=
  t.filterMap fun
    | .ImGui_SliderFloat _ _ after => some after
    | _ => none

/-- The value handed to each `glUniform1f` call, in order. -/
def uniformValues (t : List Event) : List ℚ :=
  t.filterMap fun
    | .glUniform1f _ v => some v
    | _ => none

/-- The arguments of each `glDrawArrays` call, in order. -/
def drawCalls (t : List Event) : List (DrawMode × Nat × Nat) :=
  t.filterMap fun
    | .glDrawArrays mode first count => some (mode, first, count)
    | _ => none

/-- The per-frame effects the specification lists, followed by the event poll
that closes every iteration. -/
inductive Effect where
  | beginGuiFrame
  | declareWindow
  | pushUniform
  | advancePhase
  | clearColorBuffer
  | bindProgramAndVertexArray
  | draw
  | renderGui
  | processInput
  | swapBuffers
  | pollEvents
  deriving DecidableEq, Repr

/-- Which effect a call made by the loop body belongs to.  Inside the loop
body `glViewport` is only reached from the resize callback, which
`glfwPollEvents` runs. -/
def Event.effect : Event → Option Effect
  | .ImGui_ImplOpenGL3_NewFrame | .ImGui_ImplGlfw_NewFrame | .ImGui_NewFrame =>
    some .beginGuiFrame
  | .ImGui_Begin | .ImGui_SliderFloat _ _ _ | .ImGui_End => some .declareWindow
  | .glUniform1f _ _ => some .pushUniform
  | .colorDeltaStore _ => some .advancePhase
  | .glClearColor _ _ _ _ | .glClear => some .clearColorBuffer
  | .glUseProgram _ | .glBindVertexArray _ => some .bindProgramAndVertexArray
  | .glDrawArrays _ _ _ => some .draw
  | .ImGui_Render | .ImGui_ImplOpenGL3_RenderDrawData => some .renderGui
  | .glfwGetKeyEscape _ | .glfwSetWindowShouldClose _ => some .processInput
  | .glfwSwapBuffers => some .swapBuffers
  | .glfwPollEvents | .glViewport _ _ _ _ => some .pollEvents
  | _ => none

/-- Merge each run of equal neighbours into one entry. -/
def collapse : List Effect → List Effect
  | [] => []
  | [a] => [a]
  | a :: b :: rest => if a = b then collapse (b :: rest) else a :: collapse (b :: rest)

/-- The effects of a piece of trace, each maximal block of calls belonging to
one effect counted once. -/
def effects (t : List Event) : List Effect := collapse (t.filterMap Event.effect)

/-- The ten effects in the order the specification gives for one iteration. -/
def specifiedOrder : List Effect :=
  [.beginGuiFrame, .declareWindow, .pushUniform, .advancePhase, .clearColorBuffer,
   .bindProgramAndVertexArray, .draw, .renderGui, .processInput, .swapBuffers]

/-- The things `main` sets up and tears down. -/
inductive Resource where
  | guiContext
  | windowingLibrary
  | window
  | guiGlfwBackend
  | guiOpenGLBackend
  | wrapper (w : WrapperObj)
  deriving DecidableEq, Repr

/-- The resource a call sets up, if any. -/
def Event.setsUp : Event → Option Resource
  | .ImGui_CreateContext => some .guiContext
  | .glfwInit => some .windowingLibrary
  | .glfwCreateWindow _ _ _ => some .window
  | .ImGui_ImplGlfw_InitForOpenGL _ _ => some .guiGlfwBackend
  | .ImGui_ImplOpenGL3_Init _ => some .guiOpenGLBackend
  | .construct w => some (.wrapper w)
  | _ => none

/-- The resource a call tears down, if any. -/
def Event.tearsDown : Event → Option Resource
  | .ImGui_DestroyContext => some .guiContext
  | .glfwTerminate => some .windowingLibrary
  | .glfwDestroyWindow => some .window
  | .ImGui_ImplGlfw_Shutdown => some .guiGlfwBackend
  | .ImGui_ImplOpenGL3_Shutdown => some .guiOpenGLBackend
  | .destruct w => some (.wrapper w)
  | _ => none

/-- The set-up sequence of a trace. -/
def setUps (t : List Event) : List Resource := t.filterMap Event.setsUp

/-- The teardown sequence of a trace. -/
def tearDowns (t : List Event) : List Resource := t.filterMap Event.tearsDown

/-- A released GPU handle, by the call that released it. -/
inductive Released where
  | program (id : Nat)
  | shader (id : Nat)
  | vertexArray (id : Nat)
  | buffer (id : Nat)
  deriving DecidableEq, Repr

/-- The handle a call releases, if any. -/
def Event.releases : Event → Option Released
  | .glDeleteProgram id => some (.program id)
  | .glDeleteShader id => some (.shader id)
  | .glDeleteVertexArrays id => some (.vertexArray id)
  | .glDeleteBuffers id => some (.buffer id)
  | _ => none

/-- Calls that use the shader program: selecting it, setting its uniform, and
drawing with it bound. -/
def Event.usesProgram : Event → Bool
  | .glUseProgram _ | .glUniform1f _ _ | .glDrawArrays _ _ _ => true
  | _ => false

/-- Calls that destroy one of the two shaders (or begin doing so). -/
def Event.destroysShader : Event → Bool
  | .destruct .vertexShader | .destruct .fragmentShader | .glDeleteShader _ => true
  | _ => false

/-- Whether a call constructs a GPU wrapper object. -/
def Event.isConstruct : Event → Bool
  | .construct _ => true
  | _ => false

/-- Whether a call is the report of a failure. -/
def Event.isFailureReport : Event → Bool
  | .print _ m => m.isFailure
  | _ => false

/-- The uploads of a trace: size in bytes and data of each `glBufferData`. -/
def uploads (t : List Event) : List (Nat × List ℚ) :=
  t.filterMap fun
    | .glBufferData bytes data => some (bytes, data)
    | _ => none

/-- Arguments of a `glVertexAttribPointer` call for a float attribute. -/
structure AttribPointer where
  index : Nat
  size : Nat
  stride : Nat
  pointer : Nat
  deriving DecidableEq, Repr

/-- The attribute layouts a trace configures, in order. -/
def attribPointers (t : List Event) : List AttribPointer :=
  t.filterMap fun
    | .glVertexAttribPointer index size _ stride pointer =>
      some { index := index, size := size, stride := stride, pointer := pointer }
    | _ => none

/-- Calls that write buffer data or an attribute's stride/offset layout. -/
def Event.writesVertexData : Event → Bool
  | .glBufferData _ _ | .glVertexAttribPointer _ _ _ _ _ => true
  | _ => false

/-- The program variables outside the wrappers. -/
inductive HostVar where
  | vertices
  | colorDelta
  | colorDeltaSpeed
  | glewExperimental
  deriving DecidableEq, Repr

/-- The host variable a step assigns, if any: `colorDelta += colorDeltaSpeed`,
the slider writing through `&colorDeltaSpeed`, and `glewExperimental = GL_TRUE`
are the only assignments in the source. -/
def Event.stores : Event → Option HostVar
  | .colorDeltaStore _ => some .colorDelta
  | .ImGui_SliderFloat _ _ _ => some .colorDeltaSpeed
  | .glewExperimentalStore _ => some .glewExperimental
  | _ => none

/-- Indices, counted in floats from the start of the buffer, that OpenGL reads
for vertex `i` of a float attribute: component `j` lies at byte
`pointer + i * stride + j * sizeof(float)`. -/
def AttribPointer.reads (a : AttribPointer) (i : Nat) : List Nat :=
  (List.range a.size).map fun j => (a.pointer + i * a.stride + j * sizeofFloat) / sizeofFloat

/-- Whether every byte offset the attribute reads for vertex `i` is a multiple
of the float size, so that `reads` names whole floats. -/
def AttribPointer.aligned (a : AttribPointer) (i : Nat) : Bool :=
  (List.range a.size).all fun j => (a.pointer + i * a.stride + j * sizeofFloat) % sizeofFloat = 0

/-! ## Sample environments -/

/-- An environment in which every library call succeeds. -/
def sampleEnv : Env :=
  { windowCreated := true, implGlfwInit := true, implOpenGL3Init := true, glewOk := true,
    vboGen := 1, vaoGen := 1, fragmentCreated := 1, vertexCreated := 2, programCreated := 3,
    uniformLocation := 0 }

/-- A frame in which nothing happens. -/
def idleFrame : FrameInput :=
  { slider := none, escapePressed := false, closeRequested := false, resizes := [] }

/-- A frame in which the escape key is down. -/
def escapeFrame : FrameInput :=
  { slider := none, escapePressed := true, closeRequested := false, resizes := [] }

/-- A frame in which the OS asks the window to close. -/
def closeFrame : FrameInput :=
  { slider := none, escapePressed := false, closeRequested := true, resizes := [] }

/-- A frame in which the slider leaves `colorDeltaSpeed` at `v`. -/
def sliderFrame (v : ℚ) : FrameInput :=
  { slider := some v, escapePressed := false, closeRequested := false, resizes := [] }

/-- The two attribute layouts `main` configures (main.cpp:186-188). -/
def positionAttrib : AttribPointer :=
  { index := 0, size := 3, stride := 6 * sizeofFloat, pointer := 0 }

/-- The colour attribute of main.cpp:187-188. -/
def colorAttrib : AttribPointer :=
  { index := 1, size := 3, stride := 6 * sizeofFloat, pointer := 3 * sizeofFloat }

/-- Whether some checked initialisation step fails: window creation, either GUI
backend, or the graphics loader. -/
def Env.initFails (e : Env) : Bool :=
  !e.windowCreated || !e.implGlfwInit || !e.implOpenGL3Init || !e.glewOk

/-- Whether a frame sets the window-close flag: escape seen by `processInput`
or a close request delivered by `glfwPollEvents`. -/
def FrameInput.closes (i : FrameInput) : Bool :=
  i.escapePressed || i.closeRequested

/-- Whether a call is the evaluation of the render loop's condition. -/
def Event.isLoopCheck : Event → Bool
  | .glfwWindowShouldClose _ => true
  | _ => false

/-- Whether a resource is one of the five GPU wrappers. -/
def Resource.isWrapper : Resource → Bool
  | .wrapper _ => true
  | _ => false

/-- Whether a resource belongs to the GUI library: its context or one of its
two backends. -/
def Resource.isGui : Resource → Bool
  | .guiContext | .guiGlfwBackend | .guiOpenGLBackend => true
  | _ => false

/-- The wrapper objects whose destructor a trace runs, in order. -/
def destructions (t : List Event) : List WrapperObj :=
  t.filterMap fun
    | .destruct w => some w
    | _ => none

/-- The `(program, shader)` pairs of the `glAttachShader` calls of a trace. -/
def attachments (t : List Event) : List (Nat × Nat) :=
  t.filterMap fun
    | .glAttachShader prog shader => some (prog, shader)
    | _ => none

/-! ## Lemmas on one loop body -/

theorem frameBody_shouldClose (program : ShaderProgram) (vao : VAO) (u : Int)
    (i : FrameInput) (st : LoopState) :
    (frameBody program vao u i st).1.shouldClose = (st.shouldClose || i.closes) := by
  cases hs : st.shouldClose <;> cases he : i.escapePressed <;> cases hc : i.closeRequested <;>
    simp [frameBody, processInput, FrameInput.closes, hs, he, hc]

theorem frameBody_colorDelta (program : ShaderProgram) (vao : VAO) (u : Int)
    (i : FrameInput) (st : LoopState) :
    (frameBody program vao u i st).1.colorDelta
      = st.colorDelta + sliderFloat i st.colorDeltaSpeed := by
  simp [frameBody]

theorem frameBody_colorDeltaSpeed (program : ShaderProgram) (vao : VAO) (u : Int)
    (i : FrameInput) (st : LoopState) :
    (frameBody program vao u i st).1.colorDeltaSpeed = sliderFloat i st.colorDeltaSpeed := by
  simp [frameBody]

theorem filterMap_resizes {α : Type} (f : Event → Option α)
    (hf : ∀ x y w h, f (.glViewport x y w h) = none) (l : List (Int × Int)) :
    ((l.map (fun wh => framebuffer_size_callback wh.1 wh.2)).flatten).filterMap f = [] := by
  induction l with
  | nil => simp
  | cons a l ih =>
    simp only [List.map_cons, List.flatten_cons, List.filterMap_append, ih, List.append_nil]
    simp [framebuffer_size_callback, hf]

theorem frameBody_sliderValues (program : ShaderProgram) (vao : VAO) (u : Int)
    (i : FrameInput) (st : LoopState) :
    sliderValues (frameBody program vao u i st).2 = [sliderFloat i st.colorDeltaSpeed] := by
  have h := filterMap_resizes (fun ev => match ev with
    | .ImGui_SliderFloat _ _ after => some after
    | _ => none) (by intros; rfl) i.resizes
  cases he : i.escapePressed <;>
    simp [sliderValues, frameBody, processInput, ShaderProgram.use, he, h]

theorem frameBody_uniformValues (program : ShaderProgram) (vao : VAO) (u : Int)
    (i : FrameInput) (st : LoopState) :
    uniformValues (frameBody program vao u i st).2 = [st.colorDelta] := by
  have h := filterMap_resizes (fun ev => match ev with
    | .glUniform1f _ v => some v
    | _ => none) (by intros; rfl) i.resizes
  cases he : i.escapePressed <;>
    simp [uniformValues, frameBody, processInput, ShaderProgram.use, he, h]

theorem frameBody_drawCalls (program : ShaderProgram) (vao : VAO) (u : Int)
    (i : FrameInput) (st : LoopState) :
    drawCalls (frameBody program vao u i st).2 = [(.GL_TRIANGLES, 0, 3)] := by
  have h := filterMap_resizes (fun ev => match ev with
    | .glDrawArrays mode first count => some (mode, first, count)
    | _ => none) (by intros; rfl) i.resizes
  cases he : i.escapePressed <;>
    simp [drawCalls, frameBody, processInput, ShaderProgram.use, he, h]

/-! ## Lemmas on the render loop -/

theorem frameLoop_closed (program : ShaderProgram) (vao : VAO) (u : Int)
    (inputs : List FrameInput) (st : LoopState) (h : st.shouldClose = true) :
    frameLoop program vao u inputs st
      = { state := st, trace := [.glfwWindowShouldClose true], frames := 0, exited := true } := by
  cases inputs <;> simp [frameLoop, h]

theorem frameLoop_nil (program : ShaderProgram) (vao : VAO) (u : Int)
    (st : LoopState) (h : st.shouldClose = false) :
    frameLoop program vao u [] st
      = { state := st, trace := [], frames := 0, exited := false } := by
  simp [frameLoop, h]

theorem frameLoop_cons (program : ShaderProgram) (vao : VAO) (u : Int)
    (i : FrameInput) (rest : List FrameInput) (st : LoopState) (h : st.shouldClose = false) :
    frameLoop program vao u (i :: rest) st
      = { state := (frameLoop program vao u rest (frameBody program vao u i st).1).state,
          trace := .glfwWindowShouldClose false ::
            ((frameBody program vao u i st).2 ++
              (frameLoop program vao u rest (frameBody program vao u i st).1).trace),
          frames := (frameLoop program vao u rest (frameBody program vao u i st).1).frames + 1,
          exited := (frameLoop program vao u rest (frameBody program vao u i st).1).exited } := by
  simp [frameLoop, h]

theorem sliderValues_append (a b : List Event) :
    sliderValues (a ++ b) = sliderValues a ++ sliderValues b := by
  simp [sliderValues]

theorem uniformValues_append (a b : List Event) :
    uniformValues (a ++ b) = uniformValues a ++ uniformValues b := by
  simp [uniformValues]

theorem drawCalls_append (a b : List Event) :
    drawCalls (a ++ b) = drawCalls a ++ drawCalls b := by
  simp [drawCalls]

theorem frameLoop_sliderValues_length (program : ShaderProgram) (vao : VAO) (u : Int)
    (inputs : List FrameInput) (st : LoopState) :
    (sliderValues (frameLoop program vao u inputs st).trace).length
      = (frameLoop program vao u inputs st).frames := by
  induction inputs generalizing st with
  | nil => cases h : st.shouldClose <;> simp [frameLoop, h, sliderValues]
  | cons i rest ih =>
    cases h : st.shouldClose
    · rw [frameLoop_cons _ _ _ _ _ _ h]
      have hc : sliderValues (Event.glfwWindowShouldClose false ::
          ((frameBody program vao u i st).2 ++
            (frameLoop program vao u rest (frameBody program vao u i st).1).trace))
          = sliderValues ((frameBody program vao u i st).2 ++
            (frameLoop program vao u rest (frameBody program vao u i st).1).trace) := by
        simp [sliderValues]
      simp only [hc, sliderValues_append, frameBody_sliderValues, List.length_append,
        List.length_singleton, ih]
      omega
    · simp [frameLoop_closed _ _ _ _ _ h, sliderValues]

theorem frameLoop_colorDelta (program : ShaderProgram) (vao : VAO) (u : Int)
    (inputs : List FrameInput) (st : LoopState) :
    (frameLoop program vao u inputs st).state.colorDelta
      = st.colorDelta + (sliderValues (frameLoop program vao u inputs st).trace).sum := by
  induction inputs generalizing st with
  | nil => cases h : st.shouldClose <;> simp [frameLoop, h, sliderValues]
  | cons i rest ih =>
    cases h : st.shouldClose
    · rw [frameLoop_cons _ _ _ _ _ _ h]
      have hc : sliderValues (Event.glfwWindowShouldClose false ::
          ((frameBody program vao u i st).2 ++
            (frameLoop program vao u rest (frameBody program vao u i st).1).trace))
          = sliderValues ((frameBody program vao u i st).2 ++
            (frameLoop program vao u rest (frameBody program vao u i st).1).trace) := by
        simp [sliderValues]
      simp only [hc, sliderValues_append, frameBody_sliderValues, List.sum_append,
        List.sum_cons, List.sum_nil, ih, frameBody_colorDelta]
      ring
    · simp [frameLoop_closed _ _ _ _ _ h, sliderValues]

theorem frameLoop_sliderFrames (program : ShaderProgram) (vao : VAO) (u : Int)
    (s : List ℚ) (st : LoopState) (h : st.shouldClose = false) :
    (frameLoop program vao u (s.map sliderFrame) st).frames = s.length ∧
    (frameLoop program vao u (s.map sliderFrame) st).exited = false ∧
    sliderValues (frameLoop program vao u (s.map sliderFrame) st).trace = s := by
  induction s generalizing st with
  | nil => simp [frameLoop, h, sliderValues]
  | cons v rest ih =>
    have hb : (frameBody program vao u (sliderFrame v) st).1.shouldClose = false := by
      simp [frameBody_shouldClose, h, FrameInput.closes, sliderFrame]
    obtain ⟨h1, h2, h3⟩ := ih _ hb
    rw [List.map_cons, frameLoop_cons _ _ _ _ _ _ h]
    have hc : ∀ t, sliderValues (Event.glfwWindowShouldClose false :: t) = sliderValues t := by
      intro t; simp [sliderValues]
    simp only [hc, sliderValues_append, frameBody_sliderValues, h1, h2, h3, List.length_cons]
    simp [sliderFloat, sliderFrame]

theorem frameLoop_idleFrames (program : ShaderProgram) (vao : VAO) (u : Int)
    (n : Nat) (st : LoopState) (h : st.shouldClose = false) :
    (frameLoop program vao u (List.replicate n idleFrame) st).frames = n ∧
    (frameLoop program vao u (List.replicate n idleFrame) st).exited = false ∧
    sliderValues (frameLoop program vao u (List.replicate n idleFrame) st).trace
      = List.replicate n st.colorDeltaSpeed := by
  induction n generalizing st with
  | zero => simp [frameLoop, h, sliderValues]
  | succ n ih =>
    have hb : (frameBody program vao u idleFrame st).1.shouldClose = false := by
      simp [frameBody_shouldClose, h, FrameInput.closes, idleFrame]
    obtain ⟨h1, h2, h3⟩ := ih _ hb
    rw [List.replicate_succ, frameLoop_cons _ _ _ _ _ _ h]
    have hc : ∀ t, sliderValues (Event.glfwWindowShouldClose false :: t) = sliderValues t := by
      intro t; simp [sliderValues]
    simp only [hc, sliderValues_append, frameBody_sliderValues, h1, h2, h3,
      frameBody_colorDeltaSpeed]
    simp [sliderFloat, idleFrame, List.replicate_succ]

/-! ## C1: the phase is the initial phase plus the sampled speeds -/

/-- C1. Over exact rational arithmetic the phase `colorDelta` after the render
loop has run its iterations equals the initial phase 1 plus the sum of the
speeds `colorDeltaSpeed` held after the slider call of each iteration, one
speed per iteration; for any sequence of slider values `s` (in particular any
in the slider range 0 to 0.3) the loop runs one iteration per value and ends at
`1 + s.sum`; and 100 frames with the slider untouched, so with the speed fixed
at its initial 0.01, end at phase 1 + 1. -/
theorem phase_is_initial_plus_sampled_speeds (program : ShaderProgram) (vao : VAO) (u : Int) :
    (∀ inputs : List FrameInput,
      (frameLoop program vao u inputs initialLoopState).state.colorDelta
        = 1 + (sliderValues (frameLoop program vao u inputs initialLoopState).trace).sum ∧
      (sliderValues (frameLoop program vao u inputs initialLoopState).trace).length
        = (frameLoop program vao u inputs initialLoopState).frames) ∧
    (∀ s : List ℚ,
      (frameLoop program vao u (s.map sliderFrame) initialLoopState).frames = s.length ∧
      sliderValues (frameLoop program vao u (s.map sliderFrame) initialLoopState).trace = s ∧
      (frameLoop program vao u (s.map sliderFrame) initialLoopState).state.colorDelta
        = 1 + s.sum) ∧
    ((frameLoop program vao u (List.replicate 100 idleFrame) initialLoopState).frames = 100 ∧
      sliderValues (frameLoop program vao u (List.replicate 100 idleFrame) initialLoopState).trace
        = List.replicate 100 (1/100) ∧
      (frameLoop program vao u (List.replicate 100 idleFrame) initialLoopState).state.colorDelta
        = initialLoopState.colorDelta + 1) := by
  refine ⟨fun inputs => ⟨?_, frameLoop_sliderValues_length _ _ _ _ _⟩, fun s => ?_, ?_⟩
  · rw [frameLoop_colorDelta]; rfl
  · obtain ⟨h1, _, h3⟩ := frameLoop_sliderFrames program vao u s initialLoopState rfl
    refine ⟨h1, h3, ?_⟩
    rw [frameLoop_colorDelta, h3]; rfl
  · obtain ⟨h1, _, h3⟩ := frameLoop_idleFrames program vao u 100 initialLoopState rfl
    refine ⟨h1, h3, ?_⟩
    rw [frameLoop_colorDelta, h3, List.sum_replicate]
    norm_num [initialLoopState]

/-! ## C10: the drawn phase lags the accumulator by one frame -/

theorem frameLoop_uniformValues (program : ShaderProgram) (vao : VAO) (u : Int)
    (inputs : List FrameInput) (st : LoopState) :
    uniformValues (frameLoop program vao u inputs st).trace
      = (List.range (frameLoop program vao u inputs st).frames).map fun k =>
          st.colorDelta + ((sliderValues (frameLoop program vao u inputs st).trace).take k).sum := by
  induction inputs generalizing st with
  | nil => cases h : st.shouldClose <;> simp [frameLoop, h, uniformValues]
  | cons i rest ih =>
    cases h : st.shouldClose
    · rw [frameLoop_cons _ _ _ _ _ _ h]
      have hs : ∀ t, sliderValues (Event.glfwWindowShouldClose false :: t) = sliderValues t := by
        intro t; simp [sliderValues]
      have hu : ∀ t, uniformValues (Event.glfwWindowShouldClose false :: t) = uniformValues t := by
        intro t; simp [uniformValues]
      simp only [hs, hu, sliderValues_append, uniformValues_append, frameBody_sliderValues,
        frameBody_uniformValues, ih, frameBody_colorDelta, List.range_succ_eq_map, List.map_cons,
        List.map_map, List.singleton_append, List.take_zero, List.sum_nil, add_zero]
      congr 1
      apply List.map_congr_left
      intro k _
      simp only [Function.comp, List.take_succ_cons, List.sum_cons]
      ring
    · simp [frameLoop_closed _ _ _ _ _ h, uniformValues]

/-- C10. The phase a frame is drawn with lags the accumulator by one frame:
over exact arithmetic the value handed to `glUniform1f` in frame `k+1` is 1 plus
the speeds sampled in frames 1 to `k`, so it leaves out the speed the slider
holds in that very frame; the first frame always pushes exactly 1, whatever the
slider does. -/
theorem drawn_phase_lags_one_frame (program : ShaderProgram) (vao : VAO) (u : Int) :
    (∀ inputs : List FrameInput,
      uniformValues (frameLoop program vao u inputs initialLoopState).trace
        = (List.range (frameLoop program vao u inputs initialLoopState).frames).map fun k =>
            1 + ((sliderValues
              (frameLoop program vao u inputs initialLoopState).trace).take k).sum) ∧
    (∀ s : List ℚ,
      uniformValues (frameLoop program vao u (s.map sliderFrame) initialLoopState).trace
        = (List.range s.length).map fun k => 1 + (s.take k).sum) ∧
    (∀ (i : FrameInput) (rest : List FrameInput),
      (uniformValues (frameLoop program vao u (i :: rest) initialLoopState).trace).head?
        = some 1) := by
  refine ⟨fun inputs => ?_, fun s => ?_, fun i rest => ?_⟩
  · rw [frameLoop_uniformValues]; rfl
  · obtain ⟨h1, _, h3⟩ := frameLoop_sliderFrames program vao u s initialLoopState rfl
    rw [frameLoop_uniformValues, h1, h3]; rfl
  · rw [frameLoop_cons _ _ _ _ _ _ rfl]
    have hu : ∀ t, uniformValues (Event.glfwWindowShouldClose false :: t) = uniformValues t := by
      intro t; simp [uniformValues]
    simp [hu, uniformValues_append, frameBody_uniformValues, initialLoopState]

/-! ## C2: the close flag ends the loop -/

theorem frameLoop_open_frames (program : ShaderProgram) (vao : VAO) (u : Int)
    (pre tail : List FrameInput) (st : LoopState) (hopen : st.shouldClose = false)
    (hpre : ∀ j ∈ pre, j.closes = false) :
    ∃ mid : LoopState, mid.shouldClose = false ∧
      (frameLoop program vao u (pre ++ tail) st).frames
        = pre.length + (frameLoop program vao u tail mid).frames ∧
      (frameLoop program vao u (pre ++ tail) st).exited
        = (frameLoop program vao u tail mid).exited ∧
      (frameLoop program vao u (pre ++ tail) st).state
        = (frameLoop program vao u tail mid).state := by
  induction pre generalizing st with
  | nil => exact ⟨st, hopen, by simp⟩
  | cons j pre ih =>
    have hj : j.closes = false := hpre j (by simp)
    have hb : (frameBody program vao u j st).1.shouldClose = false := by
      simp [frameBody_shouldClose, hopen, hj]
    obtain ⟨mid, hm, h1, h2, h3⟩ := ih _ hb (fun k hk => hpre k (by simp [hk]))
    refine ⟨mid, hm, ?_⟩
    rw [List.cons_append, frameLoop_cons _ _ _ _ _ _ hopen]
    simp only [h1, h2, h3, List.length_cons, and_self, and_true]
    omega

/-- C2. Nothing in a loop body clears the window-close flag: after a body the
flag is set exactly when it was set before, or `processInput` saw the escape
key, or `glfwPollEvents` delivered a close request.  With the flag set at the
loop condition no body starts.  And when, after frames that leave the flag
clear, a frame sets it, that frame is the last one: the loop exits at the very
next condition check, whatever further input is waiting, so no loop body starts
after the one in which the flag became set, well within the bound of one more
iteration. -/
theorem close_flag_ends_loop (program : ShaderProgram) (vao : VAO) (u : Int)
    (pre : List FrameInput) (i : FrameInput) (post : List FrameInput) (st : LoopState)
    (hopen : st.shouldClose = false)
    (hpre : ∀ j ∈ pre, j.escapePressed = false ∧ j.closeRequested = false)
    (hi : i.escapePressed = true ∨ i.closeRequested = true) :
    (∀ (j : FrameInput) (s : LoopState),
      (frameBody program vao u j s).1.shouldClose
        = (s.shouldClose || j.escapePressed || j.closeRequested)) ∧
    (∀ (shouldClose : Bool), (processInput i.escapePressed shouldClose).1
        = (shouldClose || i.escapePressed)) ∧
    (∀ (inputs : List FrameInput) (s : LoopState), s.shouldClose = true →
      (frameLoop program vao u inputs s).frames = 0 ∧
      (frameLoop program vao u inputs s).exited = true) ∧
    (frameLoop program vao u (pre ++ i :: post) st).exited = true ∧
    (frameLoop program vao u (pre ++ i :: post) st).frames = pre.length + 1 ∧
    (frameLoop program vao u (pre ++ i :: post) st).state.shouldClose = true := by
  refine ⟨fun j s => ?_, fun sc => ?_, fun inputs s hs => ?_, ?_⟩
  · rw [frameBody_shouldClose]; simp [FrameInput.closes, Bool.or_assoc]
  · cases sc <;> cases i.escapePressed <;> simp [processInput]
  · rw [frameLoop_closed _ _ _ _ _ hs]; simp
  · have hpre2 : ∀ j ∈ pre, j.closes = false := by
      intro j hj
      obtain ⟨h1, h2⟩ := hpre j hj
      simp [FrameInput.closes, h1, h2]
    have hi2 : i.closes = true := by
      rcases hi with h | h <;> simp [FrameInput.closes, h]
    obtain ⟨mid, hm, h1, h2, h3⟩ :=
      frameLoop_open_frames program vao u pre (i :: post) st hopen hpre2
    have hb : (frameBody program vao u i mid).1.shouldClose = true := by
      simp [frameBody_shouldClose, hi2]
    rw [h1, h2, h3, frameLoop_cons _ _ _ _ _ _ hm, frameLoop_closed _ _ _ _ _ hb]
    simp [hb]

/-- Witness for C2: two quiet frames, then escape, with two more frames
waiting; the loop runs exactly three bodies. -/
theorem close_flag_ends_loop_witness :
    (frameLoop ⟨3⟩ ⟨1⟩ 0 ([idleFrame, idleFrame] ++ escapeFrame :: [idleFrame, idleFrame])
        initialLoopState).exited = true ∧
    (frameLoop ⟨3⟩ ⟨1⟩ 0 ([idleFrame, idleFrame] ++ escapeFrame :: [idleFrame, idleFrame])
        initialLoopState).frames = 2 + 1 :=
  let h := close_flag_ends_loop ⟨3⟩ ⟨1⟩ 0 [idleFrame, idleFrame] escapeFrame
    [idleFrame, idleFrame] initialLoopState rfl (by decide) (by decide)
  ⟨h.2.2.2.1, h.2.2.2.2.1⟩

/-! ## C5: the order of effects in one iteration -/

theorem collapse_replicate (x : Effect) (n : Nat) :
    collapse (x :: List.replicate n x) = [x] := by
  induction n with
  | zero => simp [collapse]
  | succ n ih => simp [List.replicate_succ, collapse, ih]

theorem effect_resizes (l : List (Int × Int)) :
    ((l.map (fun wh => framebuffer_size_callback wh.1 wh.2)).flatten).filterMap Event.effect
      = List.replicate l.length Effect.pollEvents := by
  induction l with
  | nil => simp
  | cons a l ih =>
    simp only [List.map_cons, List.flatten_cons, List.filterMap_append, ih, List.length_cons,
      List.replicate_succ]
    simp [framebuffer_size_callback, Event.effect]

theorem frameBody_effects (program : ShaderProgram) (vao : VAO) (u : Int)
    (i : FrameInput) (st : LoopState) :
    effects (frameBody program vao u i st).2 = specifiedOrder ++ [Effect.pollEvents] := by
  have hr := collapse_replicate Effect.pollEvents i.resizes.length
  cases he : i.escapePressed <;>
    simp [effects, frameBody, processInput, ShaderProgram.use, he, effect_resizes,
      Event.effect, collapse, hr, specifiedOrder, -List.filterMap_flatten]

theorem frameLoop_drawCalls (program : ShaderProgram) (vao : VAO) (u : Int)
    (inputs : List FrameInput) (st : LoopState) :
    drawCalls (frameLoop program vao u inputs st).trace
      = List.replicate (frameLoop program vao u inputs st).frames (.GL_TRIANGLES, 0, 3) := by
  induction inputs generalizing st with
  | nil => cases h : st.shouldClose <;> simp [frameLoop, h, drawCalls]
  | cons i rest ih =>
    cases h : st.shouldClose
    · rw [frameLoop_cons _ _ _ _ _ _ h]
      have hd : ∀ t, drawCalls (Event.glfwWindowShouldClose false :: t) = drawCalls t := by
        intro t; simp [drawCalls]
      simp only [hd, drawCalls_append, frameBody_drawCalls, ih, List.replicate_succ,
        List.singleton_append]
    · simp [frameLoop_closed _ _ _ _ _ h, drawCalls]

theorem resizes_calls (l : List (Int × Int)) :
    (l.map (fun wh => framebuffer_size_callback wh.1 wh.2)).flatten
      = l.map (fun wh => Event.glViewport 0 0 wh.1 wh.2) := by
  induction l with
  | nil => rfl
  | cons a l ih =>
    simp only [List.map_cons, List.flatten_cons, ih]
    rfl

theorem frameBody_calls (program : ShaderProgram) (vao : VAO) (u : Int)
    (i : FrameInput) (st : LoopState) :
    (frameBody program vao u i st).2
      = [Event.ImGui_ImplOpenGL3_NewFrame, Event.ImGui_ImplGlfw_NewFrame, Event.ImGui_NewFrame,
         Event.ImGui_Begin,
         Event.ImGui_SliderFloat 0 (3/10) (i.slider.getD st.colorDeltaSpeed),
         Event.ImGui_End,
         Event.glUniform1f u st.colorDelta,
         Event.colorDeltaStore (st.colorDelta + i.slider.getD st.colorDeltaSpeed),
         Event.glClearColor (1/5) (2/5) (2/5) 1, Event.glClear,
         Event.glUseProgram program.m_id, Event.glBindVertexArray vao.m_id,
         Event.glDrawArrays DrawMode.GL_TRIANGLES 0 3,
         Event.ImGui_Render, Event.ImGui_ImplOpenGL3_RenderDrawData] ++
        (if i.escapePressed then
          [Event.glfwGetKeyEscape true, Event.glfwSetWindowShouldClose true]
        else [Event.glfwGetKeyEscape false]) ++
        [Event.glfwSwapBuffers, Event.glfwPollEvents] ++
        i.resizes.map (fun wh => Event.glViewport 0 0 wh.1 wh.2) := by
  cases he : i.escapePressed <;>
    simp [frameBody, processInput, ShaderProgram.use, VAO.id, sliderFloat, he, resizes_calls,
      -List.flatten_cons]

theorem frameLoop_is_bodies (program : ShaderProgram) (vao : VAO) (u : Int)
    (inputs : List FrameInput) (st : LoopState) :
    ∃ bodies : List (FrameInput × LoopState),
      bodies.length = (frameLoop program vao u inputs st).frames ∧
      bodies.map Prod.fst = inputs.take (frameLoop program vao u inputs st).frames ∧
      (frameLoop program vao u inputs st).trace
        = (bodies.map fun b =>
            Event.glfwWindowShouldClose false :: (frameBody program vao u b.1 b.2).2).flatten ++
          (if (frameLoop program vao u inputs st).exited then
            [Event.glfwWindowShouldClose true]
          else []) := by
  induction inputs generalizing st with
  | nil =>
    refine ⟨[], ?_⟩
    cases h : st.shouldClose <;> simp [frameLoop, h]
  | cons i rest ih =>
    cases h : st.shouldClose
    · obtain ⟨bodies, h1, h2, h3⟩ := ih (frameBody program vao u i st).1
      refine ⟨(i, st) :: bodies, ?_⟩
      rw [frameLoop_cons _ _ _ _ _ _ h]
      simp only [List.length_cons, h1, List.map_cons, h2, List.take_succ_cons,
        List.flatten_cons, h3, List.cons_append, List.append_assoc, and_self]
    · refine ⟨[], ?_⟩
      simp [frameLoop_closed _ _ _ _ _ h]

/-- C5 as stated fails.  In an ordinary frame the calls that follow the GUI
render are the escape-key query, `glfwSwapBuffers` and then `glfwPollEvents`:
the poll comes after the swap and is the last call of the body, so the body
does not end with the swap and its sequence of effects is not the listed one. -/
theorem event_poll_follows_swap :
    (frameBody ⟨3⟩ ⟨1⟩ 0 idleFrame initialLoopState).2.drop 15
      = [Event.glfwGetKeyEscape false, Event.glfwSwapBuffers, Event.glfwPollEvents] ∧
    effects (frameBody ⟨3⟩ ⟨1⟩ 0 idleFrame initialLoopState).2
      = specifiedOrder ++ [Effect.pollEvents] ∧
    effects (frameBody ⟨3⟩ ⟨1⟩ 0 idleFrame initialLoopState).2 ≠ specifiedOrder := by
  refine ⟨rfl, by decide, by decide⟩

/-- C5, amended.  Every iteration of the render loop makes exactly these calls,
in this order: the three `NewFrame` calls that begin the GUI frame; `Begin`,
`SliderFloat` on the speed with range 0 to 0.3, `End`; `glUniform1f` with the
phase as it stands; the assignment advancing the phase by the speed;
`glClearColor` and `glClear`; `glUseProgram` on the program and
`glBindVertexArray` on the vertex array; `glDrawArrays(GL_TRIANGLES, 0, 3)`;
`ImGui::Render` and `RenderDrawData`; the escape-key query of `processInput`,
which sets the close flag when the key is down; `glfwSwapBuffers`; and last
`glfwPollEvents`, which runs the resize callback once per resize delivered.
Grouped into effects these are the ten listed ones in the listed order followed
by the event poll.  A run of the loop is a sequence of such bodies, one per
input consumed, each preceded by a condition check that found the flag clear,
and it issues exactly one draw call per iteration. -/
theorem frame_calls_in_fixed_order (program : ShaderProgram) (vao : VAO) (u : Int) :
    (∀ (i : FrameInput) (st : LoopState),
      (frameBody program vao u i st).2
        = [Event.ImGui_ImplOpenGL3_NewFrame, Event.ImGui_ImplGlfw_NewFrame,
           Event.ImGui_NewFrame,
           Event.ImGui_Begin,
           Event.ImGui_SliderFloat 0 (3/10) (i.slider.getD st.colorDeltaSpeed),
           Event.ImGui_End,
           Event.glUniform1f u st.colorDelta,
           Event.colorDeltaStore (st.colorDelta + i.slider.getD st.colorDeltaSpeed),
           Event.glClearColor (1/5) (2/5) (2/5) 1, Event.glClear,
           Event.glUseProgram program.m_id, Event.glBindVertexArray vao.m_id,
           Event.glDrawArrays DrawMode.GL_TRIANGLES 0 3,
           Event.ImGui_Render, Event.ImGui_ImplOpenGL3_RenderDrawData] ++
          (if i.escapePressed then
            [Event.glfwGetKeyEscape true, Event.glfwSetWindowShouldClose true]
          else [Event.glfwGetKeyEscape false]) ++
          [Event.glfwSwapBuffers, Event.glfwPollEvents] ++
          i.resizes.map (fun wh => Event.glViewport 0 0 wh.1 wh.2) ∧
      (frameBody program vao u i st).1
        = { shouldClose := st.shouldClose || i.escapePressed || i.closeRequested,
            colorDelta := st.colorDelta + i.slider.getD st.colorDeltaSpeed,
            colorDeltaSpeed := i.slider.getD st.colorDeltaSpeed } ∧
      effects (frameBody program vao u i st).2
        = [Effect.beginGuiFrame, Effect.declareWindow, Effect.pushUniform, Effect.advancePhase,
           Effect.clearColorBuffer, Effect.bindProgramAndVertexArray, Effect.draw,
           Effect.renderGui, Effect.processInput, Effect.swapBuffers, Effect.pollEvents] ∧
      drawCalls (frameBody program vao u i st).2 = [(DrawMode.GL_TRIANGLES, 0, 3)]) ∧
    (∀ (inputs : List FrameInput) (st : LoopState),
      ∃ bodies : List (FrameInput × LoopState),
        bodies.length = (frameLoop program vao u inputs st).frames ∧
        bodies.map Prod.fst = inputs.take (frameLoop program vao u inputs st).frames ∧
        (frameLoop program vao u inputs st).trace
          = (bodies.map fun b =>
              Event.glfwWindowShouldClose false ::
                (frameBody program vao u b.1 b.2).2).flatten ++
            (if (frameLoop program vao u inputs st).exited then
              [Event.glfwWindowShouldClose true]
            else [])) ∧
    (∀ (inputs : List FrameInput) (st : LoopState),
      drawCalls (frameLoop program vao u inputs st).trace
        = List.replicate (frameLoop program vao u inputs st).frames
            (DrawMode.GL_TRIANGLES, 0, 3) ∧
      (drawCalls (frameLoop program vao u inputs st).trace).length
        = (frameLoop program vao u inputs st).frames) := by
  refine ⟨fun i st => ⟨frameBody_calls _ _ _ _ _, ?_, ?_, frameBody_drawCalls _ _ _ _ _⟩,
    frameLoop_is_bodies program vao u,
    fun inputs st => ⟨frameLoop_drawCalls _ _ _ _ _, ?_⟩⟩
  · cases hs : st.shouldClose <;> cases he : i.escapePressed <;>
      simp [frameBody, processInput, sliderFloat, hs, he]
  · rw [frameBody_effects]; rfl
  · rw [frameLoop_drawCalls]; simp

/-! ## Lemmas on the events of the loop and on `main` -/

theorem resizes_all (P : Event → Bool) (hP : ∀ x y w h, P (.glViewport x y w h) = true)
    (l : List (Int × Int)) :
    ((l.map (fun wh => framebuffer_size_callback wh.1 wh.2)).flatten).all P = true := by
  induction l with
  | nil => simp
  | cons a l ih =>
    simp only [List.map_cons, List.flatten_cons, List.all_append, ih, Bool.and_true]
    simp [framebuffer_size_callback, hP]

theorem frameBody_effect_isSome (program : ShaderProgram) (vao : VAO) (u : Int)
    (i : FrameInput) (st : LoopState) :
    ∀ ev ∈ (frameBody program vao u i st).2, ev.effect.isSome = true := by
  have hr := resizes_all (fun ev => ev.effect.isSome) (by intros; rfl) i.resizes
  have hall : (frameBody program vao u i st).2.all (fun ev => ev.effect.isSome) = true := by
    unfold frameBody
    simp only [List.all_append, hr, Bool.and_true]
    cases he : i.escapePressed <;> simp [processInput, ShaderProgram.use, Event.effect]
  intro ev hev
  exact (List.all_eq_true.1 hall) ev hev

theorem frameLoop_events (program : ShaderProgram) (vao : VAO) (u : Int)
    (inputs : List FrameInput) (st : LoopState) :
    ∀ ev ∈ (frameLoop program vao u inputs st).trace,
      ev.isLoopCheck = true ∨ ev.effect.isSome = true := by
  induction inputs generalizing st with
  | nil =>
    intro ev hev
    cases h : st.shouldClose <;> simp [frameLoop, h] at hev
    subst hev; exact Or.inl rfl
  | cons i rest ih =>
    intro ev hev
    cases h : st.shouldClose
    · rw [frameLoop_cons _ _ _ _ _ _ h] at hev
      simp only [List.mem_cons, List.mem_append] at hev
      rcases hev with hev | hev | hev
      · subst hev; exact Or.inl rfl
      · exact Or.inr (frameBody_effect_isSome _ _ _ _ _ ev hev)
      · exact ih _ ev hev
    · rw [frameLoop_closed _ _ _ _ _ h] at hev
      simp at hev
      subst hev; exact Or.inl rfl

theorem frameLoop_filterMap_nil {α : Type} (f : Event → Option α)
    (hf : ∀ ev : Event, ev.isLoopCheck = true ∨ ev.effect.isSome = true → f ev = none)
    (program : ShaderProgram) (vao : VAO) (u : Int) (inputs : List FrameInput) (st : LoopState) :
    (frameLoop program vao u inputs st).trace.filterMap f = [] := by
  rw [List.filterMap_eq_nil_iff]
  intro ev hev
  exact hf ev (frameLoop_events _ _ _ _ _ ev hev)

theorem frameLoop_exited (program : ShaderProgram) (vao : VAO) (u : Int)
    (inputs : List FrameInput) (st : LoopState) :
    (frameLoop program vao u inputs st).exited = (st.shouldClose || inputs.any FrameInput.closes) := by
  induction inputs generalizing st with
  | nil => cases h : st.shouldClose <;> simp [frameLoop, h]
  | cons i rest ih =>
    cases h : st.shouldClose
    · rw [frameLoop_cons _ _ _ _ _ _ h]
      simp [ih, frameBody_shouldClose, h]
    · simp [frameLoop_closed _ _ _ _ _ h]

theorem initFails_false_iff (e : Env) :
    e.initFails = false ↔
      e.windowCreated = true ∧ e.implGlfwInit = true ∧ e.implOpenGL3Init = true ∧
        e.glewOk = true := by
  unfold Env.initFails
  cases e.windowCreated <;> cases e.implGlfwInit <;> cases e.implOpenGL3Init <;>
    cases e.glewOk <;> simp

theorem main_of_init_ok (e : Env) (inputs : List FrameInput) (h : e.initFails = false) :
    main e inputs =
      if (frameLoop (createScene e).1.program (createScene e).1.vao e.uniformLocation inputs
            initialLoopState).exited then
        { exitCode := some 0,
          trace := openWindow e ++ initGlfwBackend e ++ initOpenGLBackend e ++ initGlew e ++
            (createScene e).2 ++
            (frameLoop (createScene e).1.program (createScene e).1.vao e.uniformLocation inputs
              initialLoopState).trace ++ cleanUp ++ scopeExit (createScene e).1,
          frames := (frameLoop (createScene e).1.program (createScene e).1.vao e.uniformLocation
            inputs initialLoopState).frames }
      else
        { exitCode := none,
          trace := openWindow e ++ initGlfwBackend e ++ initOpenGLBackend e ++ initGlew e ++
            (createScene e).2 ++
            (frameLoop (createScene e).1.program (createScene e).1.vao e.uniformLocation inputs
              initialLoopState).trace,
          frames := (frameLoop (createScene e).1.program (createScene e).1.vao e.uniformLocation
            inputs initialLoopState).frames } := by
  obtain ⟨h1, h2, h3, h4⟩ := (initFails_false_iff e).1 h
  simp [main, h1, h2, h3, h4]

/-- The path `main` takes when a checked initialisation step fails: the calls
up to the failing step, the message that reports it, and for window creation
the `glfwTerminate` call that precedes the return. -/
theorem main_of_init_fails (e : Env) (inputs : List FrameInput) (h : e.initFails = true) :
    (main e inputs).exitCode = some (-1) ∧ (main e inputs).frames = 0 ∧
    ((main e inputs).trace
        = openWindow e ++ [.print .cout .failedWindow, .glfwTerminate] ∨
      (main e inputs).trace
        = openWindow e ++ initGlfwBackend e ++ [.print .cerr .failedGlfwBackend] ∨
      (main e inputs).trace
        = openWindow e ++ initGlfwBackend e ++ initOpenGLBackend e ++
            [.print .cerr .failedOpenGLBackend] ∨
      (main e inputs).trace
        = openWindow e ++ initGlfwBackend e ++ initOpenGLBackend e ++ initGlew e ++
            [.print .cerr .failedGlew]) := by
  cases h1 : e.windowCreated
  · simp [main, h1]
  · cases h2 : e.implGlfwInit
    · simp [main, h1, h2]
    · cases h3 : e.implOpenGL3Init
      · simp [main, h1, h2, h3]
      · cases h4 : e.glewOk
        · simp [main, h1, h2, h3, h4]
        · simp [Env.initFails, h1, h2, h3, h4] at h

/-! ## C3: the exit code -/

theorem main_failure_shape (e : Env) (inputs : List FrameInput) (h : e.initFails = true) :
    (∀ ev ∈ (main e inputs).trace, ev.isConstruct = false ∧ ev.isLoopCheck = false) ∧
    ∃ (pre : List Event) (s : OutStream) (m : Message), m.isFailure = true ∧
      (∀ ev ∈ pre, ev.isFailureReport = false) ∧
      ((main e inputs).trace = pre ++ [.print s m] ∨
        (main e inputs).trace = pre ++ [.print s m, .glfwTerminate]) := by
  obtain ⟨_, _, ht | ht | ht | ht⟩ := main_of_init_fails e inputs h
  · refine ⟨?_, openWindow e, .cout, .failedWindow, rfl, ?_, Or.inr ht⟩
    · rw [ht]; simp [openWindow, Event.isConstruct, Event.isLoopCheck]
    · simp [openWindow, Event.isFailureReport, Message.isFailure]
  · refine ⟨?_, openWindow e ++ initGlfwBackend e, .cerr, .failedGlfwBackend, rfl, ?_, Or.inl ht⟩
    · rw [ht]; simp [openWindow, initGlfwBackend, Event.isConstruct, Event.isLoopCheck]
    · simp [openWindow, initGlfwBackend, Event.isFailureReport, Message.isFailure]
  · refine ⟨?_, openWindow e ++ initGlfwBackend e ++ initOpenGLBackend e, .cerr,
      .failedOpenGLBackend, rfl, ?_, Or.inl ht⟩
    · rw [ht]
      simp [openWindow, initGlfwBackend, initOpenGLBackend, Event.isConstruct, Event.isLoopCheck]
    · simp [openWindow, initGlfwBackend, initOpenGLBackend, Event.isFailureReport,
        Message.isFailure]
  · refine ⟨?_, openWindow e ++ initGlfwBackend e ++ initOpenGLBackend e ++ initGlew e, .cerr,
      .failedGlew, rfl, ?_, Or.inl ht⟩
    · rw [ht]
      simp [openWindow, initGlfwBackend, initOpenGLBackend, initGlew, Event.isConstruct,
        Event.isLoopCheck]
    · simp [openWindow, initGlfwBackend, initOpenGLBackend, initGlew, Event.isFailureReport,
        Message.isFailure]

theorem main_exitCode_eq (e : Env) (inputs : List FrameInput) :
    (main e inputs).exitCode
      = if e.initFails then some (-1)
        else if inputs.any FrameInput.closes then some 0 else none := by
  cases h : e.initFails
  · rw [main_of_init_ok e inputs h, frameLoop_exited]
    cases hc : inputs.any FrameInput.closes <;> simp [initialLoopState]
  · simp [(main_of_init_fails e inputs h).1]

theorem initFails_true_iff (e : Env) :
    e.initFails = true ↔
      (e.windowCreated = false ∨ e.implGlfwInit = false ∨ e.implOpenGL3Init = false ∨
        e.glewOk = false) := by
  unfold Env.initFails
  cases e.windowCreated <;> cases e.implGlfwInit <;> cases e.implOpenGL3Init <;>
    cases e.glewOk <;> simp

/-- C3. The exit code of `main` is 0 or -1 whenever it returns.  It is -1
exactly when window creation, the GUI GLFW backend, the GUI OpenGL backend or
the graphics loader fails to come up; the run then ends with the message that
reports the failure (followed, for window creation, only by `glfwTerminate`),
no earlier failure report, no GPU wrapper constructed, the loop condition never
evaluated and no loop body run.  When all four succeed `main` returns 0 as soon
as some frame sets the close flag, which ends the loop, and has not returned
while none does. -/
theorem main_exit_code (e : Env) (inputs : List FrameInput) :
    (∀ r : Int, (main e inputs).exitCode = some r → r = 0 ∨ r = -1) ∧
    ((main e inputs).exitCode = some (-1) ↔
      (e.windowCreated = false ∨ e.implGlfwInit = false ∨ e.implOpenGL3Init = false ∨
        e.glewOk = false)) ∧
    ((e.windowCreated = false ∨ e.implGlfwInit = false ∨ e.implOpenGL3Init = false ∨
        e.glewOk = false) →
      (main e inputs).frames = 0 ∧
      (∀ ev ∈ (main e inputs).trace, ev.isConstruct = false ∧ ev.isLoopCheck = false) ∧
      ∃ (pre : List Event) (s : OutStream) (m : Message), m.isFailure = true ∧
        (∀ ev ∈ pre, ev.isFailureReport = false) ∧
        ((main e inputs).trace = pre ++ [.print s m] ∨
          (main e inputs).trace = pre ++ [.print s m, .glfwTerminate])) ∧
    ((e.windowCreated = true ∧ e.implGlfwInit = true ∧ e.implOpenGL3Init = true ∧
        e.glewOk = true) →
      (main e inputs).exitCode = (if inputs.any FrameInput.closes then some 0 else none)) := by
  refine ⟨fun r hr => ?_, ?_, fun hf => ?_, fun hok => ?_⟩
  · rw [main_exitCode_eq] at hr
    split at hr
    · simp at hr; exact Or.inr hr.symm
    · split at hr
      · simp at hr; exact Or.inl hr.symm
      · simp at hr
  · rw [main_exitCode_eq, ← initFails_true_iff]
    cases e.initFails <;> cases inputs.any FrameInput.closes <;> simp
  · have h := (initFails_true_iff e).2 hf
    exact ⟨(main_of_init_fails e inputs h).2.1, main_failure_shape e inputs h⟩
  · have h := (initFails_false_iff e).2 hok
    rw [main_exitCode_eq, h]; simp

/-- Witness for C3: the graphics loader fails, so `main` returns -1 without
running a frame; and with everything up, an escape press makes it return 0. -/
theorem main_exit_code_witness :
    (main { sampleEnv with glewOk := false } [idleFrame, escapeFrame]).frames = 0 ∧
    (main sampleEnv [idleFrame, escapeFrame]).exitCode = some 0 :=
  ⟨((main_exit_code { sampleEnv with glewOk := false } [idleFrame, escapeFrame]).2.2.1
      (by decide)).1,
   (main_exit_code sampleEnv [idleFrame, escapeFrame]).2.2.2 (by decide)⟩

/-! ## C4: the attribute layout against the buffer -/

theorem createScene_attribPointers (e : Env) :
    attribPointers (createScene e).2 = [positionAttrib, colorAttrib] := by
  by_cases h1 : e.vboGen = 0 <;> by_cases h2 : e.vaoGen = 0 <;>
    simp [attribPointers, createScene, VBO.ctor, VAO.ctor, Shader.ctor, ShaderProgram.ctor,
      VAO.setAttribPointer, VAO.bind, VBO.bind, ShaderProgram.use, h1, h2, positionAttrib,
      colorAttrib]

/-- C4. The layout `main` configures matches the buffer it uploads.  The
vector `vertices` holds 18 floats, 3 vertices of 6 floats, and a successful
`VBO` constructor uploads exactly these 72 bytes.  `main` configures attribute
0 with 3 components, stride 24 bytes (6 floats) and offset 0, and attribute 1
with 3 components, the same stride and offset 12 bytes (3 floats).  Hence for
each vertex `i` of 0, 1, 2 the position is read from floats `6i .. 6i+2` and the
colour from floats `6i+3 .. 6i+5`, all on float boundaries and all below 18,
the two ranges share no index, and listed vertex by vertex the reads are
exactly the indices 0 to 17, each once. -/
theorem vertex_layout_matches_buffer :
    vertices.length = 18 ∧ vertices.length = 3 * 6 ∧
    (∀ n : Nat, uploads (VBO.ctor (n + 1) vertices).2 = [(18 * sizeofFloat, vertices)]) ∧
    18 * sizeofFloat = 72 ∧
    (∀ e : Env, attribPointers (createScene e).2 = [positionAttrib, colorAttrib]) ∧
    positionAttrib = { index := 0, size := 3, stride := 24, pointer := 0 } ∧
    colorAttrib = { index := 1, size := 3, stride := 24, pointer := 12 } ∧
    positionAttrib.stride = 6 * sizeofFloat ∧ colorAttrib.stride = 6 * sizeofFloat ∧
    colorAttrib.pointer = 3 * sizeofFloat ∧
    (∀ i : Fin 3,
      positionAttrib.reads i.val = [6 * i.val, 6 * i.val + 1, 6 * i.val + 2] ∧
      colorAttrib.reads i.val = [6 * i.val + 3, 6 * i.val + 4, 6 * i.val + 5] ∧
      positionAttrib.aligned i.val = true ∧ colorAttrib.aligned i.val = true ∧
      (∀ k ∈ positionAttrib.reads i.val ++ colorAttrib.reads i.val, k < vertices.length) ∧
      (∀ k ∈ positionAttrib.reads i.val, k ∉ colorAttrib.reads i.val)) ∧
    (List.range 3).flatMap (fun i => positionAttrib.reads i ++ colorAttrib.reads i)
      = List.range vertices.length := by
  refine ⟨by decide, by decide, fun n => ?_, by decide, createScene_attribPointers,
    by decide, by decide, by decide, by decide, by decide, by decide, by decide⟩
  simp [uploads, VBO.ctor, VBO.bind, vertices]

/-! ## C6: what the constructors do when no handle is allocated -/

/-- C6, evaluated at a failed allocation (the create/gen call yields 0).
`VAO` and `VBO` report the failure on `cout` and keep `id() = 0`; `VBO` uploads
nothing.  `Shader` and `ShaderProgram` also keep `id() = 0` and return, but
report nothing: they go on to issue `glShaderSource`/`glCompileShader`, and
`glAttachShader`/`glLinkProgram`, on handle 0. -/
theorem constructors_on_failed_allocation (src : ShaderText) (ty : ShaderType)
    (vertexShaderID fragmentShaderID : Nat) (data : List ℚ) :
    ((VAO.ctor 0).1.id = 0 ∧
      (VAO.ctor 0).2 = [.glGenVertexArrays 0, .print .cout .failedVAO]) ∧
    ((VBO.ctor 0 data).1.id = 0 ∧
      (VBO.ctor 0 data).2 = [.glGenBuffers 0, .print .cout .failedVBO]) ∧
    ((Shader.ctor 0 src ty).1.id = 0 ∧
      (Shader.ctor 0 src ty).2
        = [.glCreateShader ty 0, .glShaderSource 0 src, .glCompileShader 0] ∧
      ∀ ev ∈ (Shader.ctor 0 src ty).2, ev.isFailureReport = false) ∧
    ((ShaderProgram.ctor 0 vertexShaderID fragmentShaderID).1.id = 0 ∧
      (ShaderProgram.ctor 0 vertexShaderID fragmentShaderID).2
        = [.glCreateProgram 0, .glAttachShader 0 vertexShaderID,
           .glAttachShader 0 fragmentShaderID, .glLinkProgram 0] ∧
      ∀ ev ∈ (ShaderProgram.ctor 0 vertexShaderID fragmentShaderID).2,
        ev.isFailureReport = false) := by
  refine ⟨⟨rfl, by simp [VAO.ctor]⟩, ⟨rfl, by simp [VBO.ctor]⟩, ⟨rfl, rfl, ?_⟩, ⟨rfl, rfl, ?_⟩⟩
  · simp [Shader.ctor, Event.isFailureReport]
  · simp [ShaderProgram.ctor, Event.isFailureReport]

/-! ## C7: the order of teardown -/

theorem main_exit_zero (e : Env) (inputs : List FrameInput)
    (h : (main e inputs).exitCode = some 0) :
    e.initFails = false ∧
    (main e inputs).trace
      = openWindow e ++ initGlfwBackend e ++ initOpenGLBackend e ++ initGlew e ++
          (createScene e).2 ++
          (frameLoop (createScene e).1.program (createScene e).1.vao e.uniformLocation inputs
            initialLoopState).trace ++ cleanUp ++ scopeExit (createScene e).1 := by
  cases hf : e.initFails
  · refine ⟨rfl, ?_⟩
    rw [main_of_init_ok e inputs hf] at h ⊢
    split at h
    · rename_i hx; simp [hx]
    · simp at h
  · rw [(main_of_init_fails e inputs hf).1] at h
    simp at h

theorem frameLoop_setUps (program : ShaderProgram) (vao : VAO) (u : Int)
    (inputs : List FrameInput) (st : LoopState) :
    setUps (frameLoop program vao u inputs st).trace = [] := by
  apply frameLoop_filterMap_nil
  intro ev h
  cases ev <;> simp_all [Event.isLoopCheck, Event.effect, Event.setsUp]

theorem frameLoop_tearDowns (program : ShaderProgram) (vao : VAO) (u : Int)
    (inputs : List FrameInput) (st : LoopState) :
    tearDowns (frameLoop program vao u inputs st).trace = [] := by
  apply frameLoop_filterMap_nil
  intro ev h
  cases ev <;> simp_all [Event.isLoopCheck, Event.effect, Event.tearsDown]

theorem setUps_append (a b : List Event) : setUps (a ++ b) = setUps a ++ setUps b := by
  simp [setUps]

theorem tearDowns_append (a b : List Event) :
    tearDowns (a ++ b) = tearDowns a ++ tearDowns b := by
  simp [tearDowns]

theorem createScene_setUps (e : Env) :
    setUps (createScene e).2
      = [.wrapper .vbo, .wrapper .vao, .wrapper .fragmentShader, .wrapper .vertexShader,
         .wrapper .program] := by
  by_cases h1 : e.vboGen = 0 <;> by_cases h2 : e.vaoGen = 0 <;>
    simp [setUps, createScene, VBO.ctor, VAO.ctor, Shader.ctor, ShaderProgram.ctor,
      VAO.setAttribPointer, VAO.bind, VBO.bind, ShaderProgram.use, h1, h2, Event.setsUp]

theorem createScene_tearDowns (e : Env) : tearDowns (createScene e).2 = [] := by
  by_cases h1 : e.vboGen = 0 <;> by_cases h2 : e.vaoGen = 0 <;>
    simp [tearDowns, createScene, VBO.ctor, VAO.ctor, Shader.ctor, ShaderProgram.ctor,
      VAO.setAttribPointer, VAO.bind, VBO.bind, ShaderProgram.use, h1, h2, Event.tearsDown]

/-- C7 as stated fails: in a complete successful run the set-up sequence is the
one the claim lists, but the teardown sequence is not its reverse. -/
theorem teardown_is_not_reverse_of_setup :
    (main sampleEnv [escapeFrame]).exitCode = some 0 ∧
    setUps (main sampleEnv [escapeFrame]).trace
      = [.guiContext, .windowingLibrary, .window, .guiGlfwBackend, .guiOpenGLBackend,
         .wrapper .vbo, .wrapper .vao, .wrapper .fragmentShader, .wrapper .vertexShader,
         .wrapper .program] ∧
    tearDowns (main sampleEnv [escapeFrame]).trace
      ≠ (setUps (main sampleEnv [escapeFrame]).trace).reverse := by
  decide

/-- C7, amended. On the successful path the set-up sequence is GUI context,
windowing library, window, GUI GLFW backend, GUI OpenGL backend, then the
wrappers vbo, vao, fragmentShader, vertexShader, program; the teardown sequence
is window, windowing library, GUI OpenGL backend, GUI GLFW backend, GUI
context, and then, as `main` returns, the wrappers program, vertexShader,
fragmentShader, vao, vbo.  The wrappers are thus released in the reverse of
their construction order and the GUI parts in the reverse of their set-up
order, each group taken by itself. -/
theorem teardown_order (e : Env) (inputs : List FrameInput)
    (h : (main e inputs).exitCode = some 0) :
    setUps (main e inputs).trace
      = [.guiContext, .windowingLibrary, .window, .guiGlfwBackend, .guiOpenGLBackend,
         .wrapper .vbo, .wrapper .vao, .wrapper .fragmentShader, .wrapper .vertexShader,
         .wrapper .program] ∧
    tearDowns (main e inputs).trace
      = [.window, .windowingLibrary, .guiOpenGLBackend, .guiGlfwBackend, .guiContext,
         .wrapper .program, .wrapper .vertexShader, .wrapper .fragmentShader, .wrapper .vao,
         .wrapper .vbo] ∧
    (tearDowns (main e inputs).trace).filter Resource.isWrapper
      = ((setUps (main e inputs).trace).filter Resource.isWrapper).reverse ∧
    (tearDowns (main e inputs).trace).filter Resource.isGui
      = ((setUps (main e inputs).trace).filter Resource.isGui).reverse := by
  obtain ⟨_, ht⟩ := main_exit_zero e inputs h
  have hs : setUps (main e inputs).trace
      = [.guiContext, .windowingLibrary, .window, .guiGlfwBackend, .guiOpenGLBackend,
         .wrapper .vbo, .wrapper .vao, .wrapper .fragmentShader, .wrapper .vertexShader,
         .wrapper .program] := by
    rw [ht]
    simp only [setUps_append, createScene_setUps, frameLoop_setUps]
    simp [setUps, openWindow, initGlfwBackend, initOpenGLBackend, initGlew, cleanUp, scopeExit,
      ShaderProgram.dtor, Shader.dtor, VAO.dtor, VBO.dtor, Event.setsUp]
  have hd : tearDowns (main e inputs).trace
      = [.window, .windowingLibrary, .guiOpenGLBackend, .guiGlfwBackend, .guiContext,
         .wrapper .program, .wrapper .vertexShader, .wrapper .fragmentShader, .wrapper .vao,
         .wrapper .vbo] := by
    rw [ht]
    simp only [tearDowns_append, createScene_tearDowns, frameLoop_tearDowns]
    simp [tearDowns, openWindow, initGlfwBackend, initOpenGLBackend, initGlew, cleanUp,
      scopeExit, ShaderProgram.dtor, Shader.dtor, VAO.dtor, VBO.dtor, Event.tearsDown]
  refine ⟨hs, hd, ?_, ?_⟩
  · rw [hs, hd]; decide
  · rw [hs, hd]; decide

/-- Witness for C7 amended: a complete run that ends on an escape press. -/
theorem teardown_order_witness :
    tearDowns (main sampleEnv [idleFrame, escapeFrame]).trace
      = [.window, .windowingLibrary, .guiOpenGLBackend, .guiGlfwBackend, .guiContext,
         .wrapper .program, .wrapper .vertexShader, .wrapper .fragmentShader, .wrapper .vao,
         .wrapper .vbo] :=
  (teardown_order sampleEnv [idleFrame, escapeFrame] (by decide)).2.1

/-! ## Classifying the whole trace of `main` -/

theorem main_failure_events (e : Env) (inputs : List FrameInput) (h : e.initFails = true) :
    ∀ ev ∈ (main e inputs).trace,
      ev ∈ openWindow e ++ initGlfwBackend e ++ initOpenGLBackend e ++ initGlew e ++
        [.print .cout .failedWindow, .glfwTerminate, .print .cerr .failedGlfwBackend,
         .print .cerr .failedOpenGLBackend, .print .cerr .failedGlew] := by
  intro ev hev
  obtain ⟨_, _, ht | ht | ht | ht⟩ := main_of_init_fails e inputs h <;>
    (rw [ht] at hev
     simp only [List.mem_append, List.mem_cons, List.mem_singleton, List.not_mem_nil,
       or_false] at hev ⊢
     tauto)

theorem main_filterMap_fails {α : Type} (f : Event → Option α) (e : Env)
    (inputs : List FrameInput) (h : e.initFails = true)
    (hf : ∀ ev ∈ openWindow e ++ initGlfwBackend e ++ initOpenGLBackend e ++ initGlew e ++
        [.print .cout .failedWindow, .glfwTerminate, .print .cerr .failedGlfwBackend,
         .print .cerr .failedOpenGLBackend, .print .cerr .failedGlew], f ev = none) :
    (main e inputs).trace.filterMap f = [] := by
  rw [List.filterMap_eq_nil_iff]
  intro ev hev
  exact hf ev (main_failure_events e inputs h ev hev)

theorem main_filterMap_ok {α : Type} (f : Event → Option α) (e : Env)
    (inputs : List FrameInput) (h : e.initFails = false)
    (hloop : ∀ ev : Event, ev.isLoopCheck = true ∨ ev.effect.isSome = true → f ev = none)
    (hpre : ∀ ev ∈ openWindow e ++ initGlfwBackend e ++ initOpenGLBackend e ++ initGlew e,
      f ev = none) :
    (main e inputs).trace.filterMap f
      = (createScene e).2.filterMap f ++
          (if (main e inputs).exitCode = some 0 then
            (cleanUp ++ scopeExit (createScene e).1).filterMap f
          else []) := by
  have hp : (openWindow e ++ initGlfwBackend e ++ initOpenGLBackend e ++
      initGlew e).filterMap f = [] := List.filterMap_eq_nil_iff.2 hpre
  rw [main_of_init_ok e inputs h]
  split
  · simp only [List.filterMap_append, frameLoop_filterMap_nil f hloop, List.append_assoc,
      List.append_eq_nil] at hp ⊢
    obtain ⟨a, b, c, d⟩ := hp
    simp [a, b, c, d]
  · simp only [List.filterMap_append, frameLoop_filterMap_nil f hloop, List.append_assoc,
      List.append_eq_nil] at hp ⊢
    obtain ⟨a, b, c, d⟩ := hp
    simp [a, b, c, d]

/-! ## C8: shaders are destroyed after every use of the program -/

theorem frameLoop_keeps_shaders (program : ShaderProgram) (vao : VAO) (u : Int)
    (inputs : List FrameInput) (st : LoopState) :
    ∀ ev ∈ (frameLoop program vao u inputs st).trace, ev.destroysShader = false := by
  intro ev hev
  have h := frameLoop_events _ _ _ _ _ ev hev
  cases ev <;> simp_all [Event.isLoopCheck, Event.effect, Event.destroysShader]

theorem createScene_keeps_shaders (e : Env) :
    ∀ ev ∈ (createScene e).2, ev.destroysShader = false := by
  by_cases h1 : e.vboGen = 0 <;> by_cases h2 : e.vaoGen = 0 <;>
    simp [createScene, VBO.ctor, VAO.ctor, Shader.ctor, ShaderProgram.ctor,
      VAO.setAttribPointer, VAO.bind, VBO.bind, ShaderProgram.use, h1, h2, Event.destroysShader]

theorem use_before_shader_destruction (e : Env) (inputs : List FrameInput) :
    ∃ A B : List Event, (main e inputs).trace = A ++ B ∧
      (∀ ev ∈ A, ev.destroysShader = false) ∧ (∀ ev ∈ B, ev.usesProgram = false) := by
  have hpre : ∀ ev ∈ openWindow e ++ initGlfwBackend e ++ initOpenGLBackend e ++ initGlew e,
      ev.destroysShader = false := by
    simp [openWindow, initGlfwBackend, initOpenGLBackend, initGlew, Event.destroysShader]
  cases hf : e.initFails
  · rw [main_of_init_ok e inputs hf]
    split
    · refine ⟨openWindow e ++ initGlfwBackend e ++ initOpenGLBackend e ++ initGlew e ++
        (createScene e).2 ++
        (frameLoop (createScene e).1.program (createScene e).1.vao e.uniformLocation inputs
          initialLoopState).trace, cleanUp ++ scopeExit (createScene e).1, by simp, ?_, ?_⟩
      · intro ev hev
        rcases List.mem_append.1 hev with hev | hev
        · rcases List.mem_append.1 hev with hev | hev
          · exact hpre ev hev
          · exact createScene_keeps_shaders e ev hev
        · exact frameLoop_keeps_shaders _ _ _ _ _ ev hev
      · simp [cleanUp, scopeExit, ShaderProgram.dtor, Shader.dtor, VAO.dtor, VBO.dtor,
          Event.usesProgram]
    · refine ⟨_, [], (List.append_nil _).symm, ?_, by simp⟩
      intro ev hev
      rcases List.mem_append.1 hev with hev | hev
      · rcases List.mem_append.1 hev with hev | hev
        · exact hpre ev hev
        · exact createScene_keeps_shaders e ev hev
      · exact frameLoop_keeps_shaders _ _ _ _ _ ev hev
  · refine ⟨_, [], (List.append_nil _).symm, ?_, by simp⟩
    intro ev hev
    have hm := main_failure_events e inputs hf ev hev
    revert hm
    simp only [List.mem_append, List.mem_cons, List.mem_singleton, List.not_mem_nil, or_false]
    rintro (hm | hm)
    · exact hpre ev (by simpa only [List.mem_append] using hm)
    · rcases hm with rfl | rfl | rfl | rfl | rfl <;> rfl

theorem main_releases (e : Env) (inputs : List FrameInput) :
    (main e inputs).trace.filterMap Event.releases
      = if (main e inputs).exitCode = some 0 then
          [.program e.programCreated, .shader e.vertexCreated, .shader e.fragmentCreated,
           .vertexArray e.vaoGen, .buffer e.vboGen]
        else [] := by
  cases hf : e.initFails
  · rw [main_filterMap_ok Event.releases e inputs hf
      (by intro ev h; cases ev <;> simp_all [Event.isLoopCheck, Event.effect, Event.releases])
      (by simp [openWindow, initGlfwBackend, initOpenGLBackend, initGlew, Event.releases])]
    have hs : (createScene e).2.filterMap Event.releases = [] := by
      by_cases h1 : e.vboGen = 0 <;> by_cases h2 : e.vaoGen = 0 <;>
        simp [createScene, VBO.ctor, VAO.ctor, Shader.ctor, ShaderProgram.ctor,
          VAO.setAttribPointer, VAO.bind, VBO.bind, ShaderProgram.use, h1, h2, Event.releases]
    rw [hs]
    simp [cleanUp, scopeExit, createScene, VBO.ctor, VAO.ctor, Shader.ctor, ShaderProgram.ctor,
      ShaderProgram.dtor, Shader.dtor, VAO.dtor, VBO.dtor, Event.releases]
  · rw [main_filterMap_fails Event.releases e inputs hf
      (by simp [openWindow, initGlfwBackend, initOpenGLBackend, initGlew, Event.releases]),
      (main_of_init_fails e inputs hf).1]
    simp

theorem main_destructions (e : Env) (inputs : List FrameInput) :
    destructions (main e inputs).trace
      = if (main e inputs).exitCode = some 0 then
          [.program, .vertexShader, .fragmentShader, .vao, .vbo]
        else [] := by
  unfold destructions
  cases hf : e.initFails
  · rw [main_filterMap_ok _ e inputs hf
      (by intro ev h; cases ev <;> simp_all [Event.isLoopCheck, Event.effect])
      (by simp [openWindow, initGlfwBackend, initOpenGLBackend, initGlew])]
    have hs : (createScene e).2.filterMap (fun ev => match ev with
        | .destruct w => some w
        | _ => none) = [] := by
      by_cases h1 : e.vboGen = 0 <;> by_cases h2 : e.vaoGen = 0 <;>
        simp [createScene, VBO.ctor, VAO.ctor, Shader.ctor, ShaderProgram.ctor,
          VAO.setAttribPointer, VAO.bind, VBO.bind, ShaderProgram.use, h1, h2]
    rw [hs]
    simp [cleanUp, scopeExit, ShaderProgram.dtor, Shader.dtor, VAO.dtor, VBO.dtor]
  · rw [main_filterMap_fails _ e inputs hf
      (by simp [openWindow, initGlfwBackend, initOpenGLBackend, initGlew]),
      (main_of_init_fails e inputs hf).1]
    simp

theorem main_attachments (e : Env) (inputs : List FrameInput) :
    attachments (main e inputs).trace
      = if e.initFails then []
        else [(e.programCreated, e.fragmentCreated), (e.programCreated, e.vertexCreated)] := by
  unfold attachments
  cases hf : e.initFails
  · rw [main_filterMap_ok _ e inputs hf
      (by intro ev h; cases ev <;> simp_all [Event.isLoopCheck, Event.effect])
      (by simp [openWindow, initGlfwBackend, initOpenGLBackend, initGlew])]
    have hs : (createScene e).2.filterMap (fun ev => match ev with
        | .glAttachShader prog shader => some (prog, shader)
        | _ => none)
        = [(e.programCreated, e.fragmentCreated), (e.programCreated, e.vertexCreated)] := by
      by_cases h1 : e.vboGen = 0 <;> by_cases h2 : e.vaoGen = 0 <;>
        simp [createScene, VBO.ctor, VAO.ctor, Shader.ctor, ShaderProgram.ctor,
          VAO.setAttribPointer, VAO.bind, VBO.bind, ShaderProgram.use, h1, h2, Shader.id]
    rw [hs]
    simp [cleanUp, scopeExit, ShaderProgram.dtor, Shader.dtor, VAO.dtor, VBO.dtor]
  · rw [main_filterMap_fails _ e inputs hf
      (by simp [openWindow, initGlfwBackend, initOpenGLBackend, initGlew])]
    simp

/-- C8. In every run of `main` the trace splits into a first part in which no
shader is destroyed and a second part in which the program is never used (no
`glUseProgram`, no `glUniform1f`, no draw): no use of the program follows the
destruction of a shader.  The wrappers are destroyed only when `main` returns
0, in the order program, vertexShader, fragmentShader, vao, vbo, so the
program's handle is released before the handles of the two shaders attached to
it, then the vertex array, then the buffer. -/
theorem program_never_used_after_shader_destroyed (e : Env) (inputs : List FrameInput) :
    (∃ A B : List Event, (main e inputs).trace = A ++ B ∧
      (∀ ev ∈ A, ev.destroysShader = false) ∧ (∀ ev ∈ B, ev.usesProgram = false)) ∧
    destructions (main e inputs).trace
      = (if (main e inputs).exitCode = some 0 then
          [WrapperObj.program, WrapperObj.vertexShader, WrapperObj.fragmentShader,
           WrapperObj.vao, WrapperObj.vbo]
        else []) ∧
    (main e inputs).trace.filterMap Event.releases
      = (if (main e inputs).exitCode = some 0 then
          [Released.program e.programCreated, Released.shader e.vertexCreated,
           Released.shader e.fragmentCreated, Released.vertexArray e.vaoGen,
           Released.buffer e.vboGen]
        else []) ∧
    attachments (main e inputs).trace
      = (if e.initFails then []
        else [(e.programCreated, e.fragmentCreated), (e.programCreated, e.vertexCreated)]) :=
  ⟨use_before_shader_destruction e inputs, main_destructions e inputs, main_releases e inputs,
    main_attachments e inputs⟩

/-! ## C9: vertex data is written during set-up only -/

theorem frameLoop_writes_nothing (program : ShaderProgram) (vao : VAO) (u : Int)
    (inputs : List FrameInput) (st : LoopState) :
    ∀ ev ∈ (frameLoop program vao u inputs st).trace,
      ev.writesVertexData = false ∧ ev.stores ≠ some HostVar.vertices := by
  intro ev hev
  have h := frameLoop_events _ _ _ _ _ ev hev
  cases ev <;> simp_all [Event.isLoopCheck, Event.effect, Event.writesVertexData, Event.stores]

theorem main_vertex_writes (e : Env) (inputs : List FrameInput) :
    (main e inputs).trace.filter Event.writesVertexData
      = if e.initFails then []
        else (if e.vboGen = 0 then [] else [Event.glBufferData (18 * sizeofFloat) vertices]) ++
          [Event.glVertexAttribPointer 0 3 false (6 * sizeofFloat) 0,
           Event.glVertexAttribPointer 1 3 false (6 * sizeofFloat) (3 * sizeofFloat)] := by
  rw [← List.filterMap_eq_filter]
  cases hf : e.initFails
  · rw [main_filterMap_ok _ e inputs hf
      (by intro ev h
          cases ev <;>
            simp_all [Event.isLoopCheck, Event.effect, Event.writesVertexData, Option.guard])
      (by simp [openWindow, initGlfwBackend, initOpenGLBackend, initGlew,
          Event.writesVertexData, Option.guard])]
    have hs : (cleanUp ++ scopeExit (createScene e).1).filterMap
        (Option.guard fun x => Event.writesVertexData x = true) = [] := by
      simp [cleanUp, scopeExit, ShaderProgram.dtor, Shader.dtor, VAO.dtor, VBO.dtor,
        Event.writesVertexData, Option.guard]
    rw [hs]
    by_cases h1 : e.vboGen = 0 <;> by_cases h2 : e.vaoGen = 0 <;>
      simp [createScene, VBO.ctor, VAO.ctor, Shader.ctor, ShaderProgram.ctor,
        VAO.setAttribPointer, VAO.bind, VBO.bind, ShaderProgram.use, h1, h2,
        Event.writesVertexData, Option.guard, vertices]
  · rw [main_filterMap_fails _ e inputs hf
      (by simp [openWindow, initGlfwBackend, initOpenGLBackend, initGlew,
          Event.writesVertexData, Option.guard])]
    simp

theorem main_uploads (e : Env) (inputs : List FrameInput) :
    uploads (main e inputs).trace
      = if e.initFails = false ∧ e.vboGen ≠ 0 then [(18 * sizeofFloat, vertices)] else [] := by
  unfold uploads
  cases hf : e.initFails
  · rw [main_filterMap_ok _ e inputs hf
      (by intro ev h; cases ev <;> simp_all [Event.isLoopCheck, Event.effect])
      (by simp [openWindow, initGlfwBackend, initOpenGLBackend, initGlew])]
    have hs : (cleanUp ++ scopeExit (createScene e).1).filterMap (fun ev => match ev with
        | .glBufferData bytes data => some (bytes, data)
        | _ => none) = [] := by
      simp [cleanUp, scopeExit, ShaderProgram.dtor, Shader.dtor, VAO.dtor, VBO.dtor]
    rw [hs]
    by_cases h1 : e.vboGen = 0 <;> by_cases h2 : e.vaoGen = 0 <;>
      simp [createScene, VBO.ctor, VAO.ctor, Shader.ctor, ShaderProgram.ctor,
        VAO.setAttribPointer, VAO.bind, VBO.bind, ShaderProgram.use, h1, h2, vertices]
  · rw [main_filterMap_fails _ e inputs hf
      (by simp [openWindow, initGlfwBackend, initOpenGLBackend, initGlew])]
    simp

theorem main_attribPointers (e : Env) (inputs : List FrameInput) :
    attribPointers (main e inputs).trace
      = if e.initFails then [] else [positionAttrib, colorAttrib] := by
  cases hf : e.initFails
  · have h := main_filterMap_ok (fun ev => match ev with
        | .glVertexAttribPointer index size _ stride pointer =>
          some ({ index := index, size := size, stride := stride, pointer := pointer } :
            AttribPointer)
        | _ => none) e inputs hf
      (by intro ev h; cases ev <;> simp_all [Event.isLoopCheck, Event.effect])
      (by simp [openWindow, initGlfwBackend, initOpenGLBackend, initGlew])
    have hs : (cleanUp ++ scopeExit (createScene e).1).filterMap (fun ev => match ev with
        | .glVertexAttribPointer index size _ stride pointer =>
          some ({ index := index, size := size, stride := stride, pointer := pointer } :
            AttribPointer)
        | _ => none) = [] := by
      simp [cleanUp, scopeExit, ShaderProgram.dtor, Shader.dtor, VAO.dtor, VBO.dtor]
    have hc := createScene_attribPointers e
    unfold attribPointers at hc ⊢
    rw [h, hs, hc]
    simp
  · unfold attribPointers
    rw [main_filterMap_fails _ e inputs hf
      (by simp [openWindow, initGlfwBackend, initOpenGLBackend, initGlew])]
    simp

/-- C9 as stated fails: with every initialisation step succeeding but
`glGenBuffers` yielding no name, `main` runs its frames and returns 0 without
a single upload. -/
theorem upload_skipped_without_buffer_name :
    (main { sampleEnv with vboGen := 0 } [idleFrame, escapeFrame]).exitCode = some 0 ∧
    (main { sampleEnv with vboGen := 0 } [idleFrame, escapeFrame]).frames = 2 ∧
    uploads (main { sampleEnv with vboGen := 0 } [idleFrame, escapeFrame]).trace = [] := by
  decide

/-- C9, amended. In every run the calls that write buffer data or attribute
layout are, in order: the upload of the 18 floats of `vertices` (72 bytes) by
the `VBO` constructor, present exactly when initialisation succeeds and
`glGenBuffers` yields a non-zero name, then the two `glVertexAttribPointer`
calls of the set-up, present exactly when initialisation succeeds.  So the
buffer is uploaded at most once, each attribute's stride and offset are set
once, after the upload, and for every number of iterations no step of the
render loop or of the teardown writes buffer data or attribute layout; no step
of the program assigns to the host-side vector `vertices`. -/
theorem vertex_data_written_in_setup_only (e : Env) (inputs : List FrameInput) :
    (main e inputs).trace.filter Event.writesVertexData
      = (if e.initFails then []
        else (if e.vboGen = 0 then [] else [Event.glBufferData (18 * sizeofFloat) vertices]) ++
          [Event.glVertexAttribPointer 0 3 false (6 * sizeofFloat) 0,
           Event.glVertexAttribPointer 1 3 false (6 * sizeofFloat) (3 * sizeofFloat)]) ∧
    uploads (main e inputs).trace
      = (if e.initFails = false ∧ e.vboGen ≠ 0 then [(18 * sizeofFloat, vertices)] else []) ∧
    (uploads (main e inputs).trace).length ≤ 1 ∧
    attribPointers (main e inputs).trace
      = (if e.initFails then [] else [positionAttrib, colorAttrib]) ∧
    (∀ (program : ShaderProgram) (vao : VAO) (u : Int) (frames : List FrameInput)
        (st : LoopState), ∀ ev ∈ (frameLoop program vao u frames st).trace,
      ev.writesVertexData = false ∧ ev.stores ≠ some HostVar.vertices) ∧
    (∀ w : Wrappers, ∀ ev ∈ cleanUp ++ scopeExit w, ev.writesVertexData = false) ∧
    (∀ ev ∈ (main e inputs).trace, ev.stores ≠ some HostVar.vertices) := by
  refine ⟨main_vertex_writes e inputs, main_uploads e inputs, ?_, main_attribPointers e inputs,
    frameLoop_writes_nothing, ?_, ?_⟩
  · rw [main_uploads]; split <;> simp
  · intro w
    simp [cleanUp, scopeExit, ShaderProgram.dtor, Shader.dtor, VAO.dtor, VBO.dtor,
      Event.writesVertexData]
  · intro ev _
    cases ev <;> simp [Event.stores]

end RainbowTriangle
